import Mathlib

/-!
# OpenRTSCamera: the camera component `URTSCamera`

A shallow embedding of `Source/OpenRTSCamera/Private/RTSCamera.cpp`.

* Numbers (`float`, `double`) are exact rationals: rounding is not modelled.
  Every input (configuration, pointer, viewport, engine answers) is a
  rational.
* The one operation of the file that can yield a value that is not a number
  is the division of `OnDragCamera` (lines 231-232), written with no test of
  the divisor.  Its result becomes the `Scale` of a queued command, and the
  tick adds a multiple of that `Scale` to the root location.  These two
  places, the `Scale` of a command and the root location, have the type
  `FloatValue`, a rational or `NaN`, with the arithmetic of floats on `NaN`
  (any sum, difference or product with `NaN` is `NaN`).
* The component together with the two scene components it drives (the
  owner's root component and the spring arm) is one record, `RTSCamera`;
  every member function is a function on that record.
* What the engine answers when the component asks (pointer position,
  viewport size, direction vectors, line trace, actor location and bounds) is
  the record `World`, passed to every function that asks.
* The owner's root component has no attach parent, so that its relative and
  its world transform are the same.
* The literals `0.05f` and `0.95f` of the edge-scroll band are taken at their
  exact `float` values, on which the ends of the band depend; the decimal
  literals of the constructor are taken at their decimal values.
-/

namespace OpenRTSCamera

/-! ## Engine value types -/

/-- Engine type `FVector2D`. -/
structure FVector2D where
  X : ℚ
  Y : ℚ
deriving DecidableEq

/-- Engine type `FVector`. -/
structure FVector where
  X : ℚ
  Y : ℚ
  Z : ℚ
deriving DecidableEq

/-- Engine type `FRotator` (degrees). -/
structure FRotator where
  Pitch : ℚ
  Yaw : ℚ
  Roll : ℚ
deriving DecidableEq

/-- Engine `FRotator::Euler`: the vector (Roll, Pitch, Yaw). -/
def FRotator.Euler (r : FRotator) : FVector := ⟨r.Roll, r.Pitch, r.Yaw⟩

/-- Engine `FRotator::MakeFromEuler`: X is roll, Y is pitch, Z is yaw. -/
def FRotator.MakeFromEuler (Euler : FVector) : FRotator := ⟨Euler.Y, Euler.Z, Euler.X⟩

/-- A floating value that may be not-a-number: a rational, or `NaN`. -/
inductive FloatValue where
  | num (q : ℚ)
  | NaN
deriving DecidableEq

/-- Floating addition: a sum with `NaN` is `NaN`. -/
def FloatValue.add : FloatValue → FloatValue → FloatValue
  | .num a, .num b => .num (a + b)
  | _, _ => .NaN

/-- Floating subtraction: a difference with `NaN` is `NaN`. -/
def FloatValue.sub : FloatValue → FloatValue → FloatValue
  | .num a, .num b => .num (a - b)
  | _, _ => .NaN

/-- Floating multiplication: a product with `NaN` is `NaN`. -/
def FloatValue.mul : FloatValue → FloatValue → FloatValue
  | .num a, .num b => .num (a * b)
  | _, _ => .NaN

instance : Add FloatValue := ⟨FloatValue.add⟩

instance : Sub FloatValue := ⟨FloatValue.sub⟩

instance : Mul FloatValue := ⟨FloatValue.mul⟩

/-- An `FVector` whose components may be not-a-number: the type of the root
location. -/
structure FLocation where
  X : FloatValue
  Y : FloatValue
  Z : FloatValue
deriving DecidableEq

/-- An `FVector` of rationals as a location. -/
def FVector.toLocation (v : FVector) : FLocation := ⟨.num v.X, .num v.Y, .num v.Z⟩

instance : Add FLocation := ⟨fun a b => ⟨a.X + b.X, a.Y + b.Y, a.Z + b.Z⟩⟩

/-- The struct `FMoveCameraCommand` (fields bound in this order at line 270). -/
structure FMoveCameraCommand where
  X : ℚ
  Y : ℚ
  Scale : FloatValue
deriving DecidableEq

/-- Actors are known to the component by reference only. -/
abbrev AActor := Nat

instance : Add FVector := ⟨fun a b => ⟨a.X + b.X, a.Y + b.Y, a.Z + b.Z⟩⟩

instance : Sub FVector2D := ⟨fun a b => ⟨a.X - b.X, a.Y - b.Y⟩⟩

/-- Engine `FVector * scalar`. -/
def FVector.scale (v : FVector) (k : ℚ) : FVector := ⟨v.X * k, v.Y * k, v.Z * k⟩

/-- Engine `FVector2D * scalar`. -/
def FVector2D.scale (v : FVector2D) (k : ℚ) : FVector2D := ⟨v.X * k, v.Y * k⟩

/-! ## Engine math -/

/-- The literal `0.05f` of lines 487 and 520: the `float` nearest to 0.05,
which is 13421773 / 2^28, a little more than 1/20. -/
def FLOAT_0_05 : ℚ := 13421773 / 268435456

/-- The literal `0.95f` of lines 503 and 535: the `float` nearest to 0.95,
which is 15938355 / 2^24, a little less than 19/20. -/
def FLOAT_0_95 : ℚ := 15938355 / 16777216

/-- Engine constant `UE_SMALL_NUMBER` (1.e-8). -/
def SMALL_NUMBER : ℚ := 1 / 100000000

/-- Engine `FMath::Max`: `(B < A) ? A : B`. -/
def FMath.Max (A B : ℚ) : ℚ := if B < A then A else B

/-- Engine `FMath::Min`: `(A < B) ? A : B`. -/
def FMath.Min (A B : ℚ) : ℚ := if A < B then A else B

/-- Engine `FMath::Clamp`: `Max(Min(X, MaxValue), MinValue)`. -/
def FMath.Clamp (X MinValue MaxValue : ℚ) : ℚ := FMath.Max (FMath.Min X MaxValue) MinValue

/-- Engine `FMath::Clamp<int32>`. -/
def FMath.ClampInt (X MinValue MaxValue : Int) : Int :=
  let m := if X < MaxValue then X else MaxValue
  if MinValue < m then m else MinValue

/-- Engine `FMath::FInterpTo`. -/
def FMath.FInterpTo (Current Target DeltaTime InterpSpeed : ℚ) : ℚ :=
  if InterpSpeed ≤ 0 then Target
  else
    let Dist := Target - Current
    if Dist * Dist < SMALL_NUMBER then Target
    else Current + Dist * FMath.Clamp (DeltaTime * InterpSpeed) 0 1

/-- Conversion of a floating value to `int32` as C++ performs it on an
argument: the fractional part is discarded (rounding toward zero).  Values
whose integer part does not fit 32 bits have no defined conversion. -/
def toInt32 (q : ℚ) : Int := if 0 ≤ q then ⌊q⌋ else ⌈q⌉

/-- The conversion to `int32` of a value that may be not-a-number.  C++ leaves
the conversion of `NaN` undefined: `NaNResult` is what the platform yields. -/
def FloatValue.toInt32 (NaNResult : Int) : FloatValue → Int
  | .num q => OpenRTSCamera.toInt32 q
  | .NaN => NaNResult

/-- Engine `UKismetMathLibrary::FClamp(double, double, double)`. -/
def UKismetMathLibrary.FClamp (Value A B : ℚ) : ℚ := FMath.Clamp Value A B

/-- Engine `UKismetMathLibrary::Clamp(int32, int32, int32)`, the integer
clamp of the library ("Clamp (Integer)"). -/
def UKismetMathLibrary.Clamp (Value Min Max : Int) : Int := FMath.ClampInt Value Min Max

/-- Engine `UKismetMathLibrary::NormalizeToRange`. -/
def UKismetMathLibrary.NormalizeToRange (Value RangeMin RangeMax : ℚ) : ℚ :=
  if RangeMin = RangeMax then
    if Value < RangeMin then 0 else 1
  else
    let lo := if RangeMin > RangeMax then RangeMax else RangeMin
    let hi := if RangeMin > RangeMax then RangeMin else RangeMax
    (Value - lo) / (hi - lo)

/-- Engine `FVector2D::Normalize` with its default tolerance; `InvSqrt` is the
engine's reciprocal square root. -/
def FVector2D.Normalize (InvSqrt : ℚ → ℚ) (v : FVector2D) : FVector2D :=
  let SquareSum := v.X * v.X + v.Y * v.Y
  if SquareSum > SMALL_NUMBER then
    let Scale := InvSqrt SquareSum
    ⟨v.X * Scale, v.Y * Scale⟩
  else ⟨0, 0⟩

/-! ## The component and its world -/

/-- The answers of the engine to the queries the component makes. -/
structure World where
  /-- `UWidgetLayoutLibrary::GetMousePositionOnViewport`. -/
  MousePositionOnViewport : FVector2D
  /-- `UWidgetLayoutLibrary::GetViewportWidgetGeometry(..).GetLocalSize()`. -/
  ViewportSize : FVector2D
  /-- `SpringArm->GetForwardVector()`. -/
  SpringArmForwardVector : FVector
  /-- `SpringArm->GetRightVector()`. -/
  SpringArmRightVector : FVector
  /-- `Root->GetForwardVector()`. -/
  RootForwardVector : FVector
  /-- `Root->GetRightVector()`. -/
  RootRightVector : FVector
  /-- `UKismetSystemLibrary::LineTraceSingle` from a start to an end point:
  the hit location when the trace hits. -/
  LineTraceSingle : FLocation → FLocation → Option FVector
  /-- `AActor::GetActorLocation`. -/
  GetActorLocation : AActor → FVector
  /-- `AActor::GetActorBounds`: origin and half extents. -/
  GetActorBounds : AActor → FVector × FVector
  /-- `UGameplayStatics::GetAllActorsOfClassWithTag` for the bounds tag. -/
  BlockingVolumes : List AActor
  /-- `FMath::InvSqrt`. -/
  InvSqrt : ℚ → ℚ
  /-- What the platform yields for the conversion of `NaN` to `int32`. -/
  NaNToInt32 : Int

/-- The component `URTSCamera` with the root component and the spring arm. -/
structure RTSCamera where
  DragExtent : ℚ
  EdgeScrollSpeed : ℚ
  DistanceFromEdgeThreshold : ℚ
  EnableCameraLag : Bool
  EnableCameraRotationLag : Bool
  EnableDynamicCameraHeight : Bool
  EnableEdgeScrolling : Bool
  FindGroundTraceLength : ℚ
  MaximumZoomLength : ℚ
  MinimumZoomLength : ℚ
  MoveSpeed : ℚ
  RotateSpeed : ℚ
  StartingYAngle : ℚ
  StartingZAngle : ℚ
  ZoomCatchupSpeed : ℚ
  ZoomSpeed : ℚ
  DesiredZoomLength : ℚ
  DeltaSeconds : ℚ
  IsDragging : Bool
  DragStartLocation : FVector2D
  IsCameraOutOfBoundsErrorAlreadyDisplayed : Bool
  MoveCameraCommands : List FMoveCameraCommand
  CameraFollowTarget : Option AActor
  BoundaryVolume : Option AActor
  /-- Location of `Root`. -/
  RootLocation : FLocation
  /-- Rotation of `Root`. -/
  RootRotation : FRotator
  /-- Field `SpringArm->TargetArmLength`. -/
  TargetArmLength : ℚ
  /-- Relative rotation of `SpringArm`. -/
  SpringArmRotation : FRotator
  /-- Field `SpringArm->bDoCollisionTest`. -/
  bDoCollisionTest : Bool
  /-- Field `SpringArm->bEnableCameraLag`. -/
  bEnableCameraLag : Bool
  /-- Field `SpringArm->bEnableCameraRotationLag`. -/
  bEnableCameraRotationLag : Bool

/-! ## Member functions -/

/-- `URTSCamera::FollowTarget` (lines 97-100). -/
def FollowTarget (Target : Option AActor) (s : RTSCamera) : RTSCamera :=
  { s with CameraFollowTarget := Target }

/-- `URTSCamera::UnFollowTarget` (lines 102-105). -/
def UnFollowTarget (s : RTSCamera) : RTSCamera :=
  { s with CameraFollowTarget := none }

/-- `URTSCamera::OnZoomCamera` (lines 107-119). -/
def OnZoomCamera (Value : ℚ) (s : RTSCamera) : RTSCamera :=
  { s with
    DesiredZoomLength :=
      FMath.Clamp (s.DesiredZoomLength + Value * s.ZoomSpeed)
        s.MinimumZoomLength s.MaximumZoomLength }

/-- `URTSCamera::OnRotateCamera` (lines 121-138). -/
def OnRotateCamera (Value : ℚ) (s : RTSCamera) : RTSCamera :=
  let WorldRotation := s.RootRotation
  { s with
    RootRotation :=
      FRotator.MakeFromEuler
        ⟨WorldRotation.Euler.X, WorldRotation.Euler.Y, WorldRotation.Euler.Z + Value⟩ }

/-- `URTSCamera::OnTurnCameraLeft` (lines 140-157). -/
def OnTurnCameraLeft (s : RTSCamera) : RTSCamera :=
  let WorldRotation := s.RootRotation
  { s with
    RootRotation :=
      FRotator.MakeFromEuler
        ⟨WorldRotation.Euler.X, WorldRotation.Euler.Y, WorldRotation.Euler.Z - s.RotateSpeed⟩ }

/-- `URTSCamera::OnTurnCameraRight` (lines 159-176). -/
def OnTurnCameraRight (s : RTSCamera) : RTSCamera :=
  let WorldRotation := s.RootRotation
  { s with
    RootRotation :=
      FRotator.MakeFromEuler
        ⟨WorldRotation.Euler.X, WorldRotation.Euler.Y, WorldRotation.Euler.Z + s.RotateSpeed⟩ }

/-- `URTSCamera::RequestMoveCamera` (lines 256-263): `TArray::Push` appends
at the end. -/
def RequestMoveCamera (X Y : ℚ) (Scale : FloatValue) (s : RTSCamera) : RTSCamera :=
  { s with MoveCameraCommands := s.MoveCameraCommands ++ [⟨X, Y, Scale⟩] }

/-- `URTSCamera::OnMoveCameraYAxis` (lines 178-190). -/
def OnMoveCameraYAxis (w : World) (Value : ℚ) (s : RTSCamera) : RTSCamera :=
  RequestMoveCamera w.SpringArmForwardVector.X w.SpringArmForwardVector.Y (.num Value) s

/-- `URTSCamera::OnMoveCameraXAxis` (lines 192-204). -/
def OnMoveCameraXAxis (w : World) (Value : ℚ) (s : RTSCamera) : RTSCamera :=
  RequestMoveCamera w.SpringArmRightVector.X w.SpringArmRightVector.Y (.num Value) s

/-- The floating division `a / b` of lines 231-232, written in the source
with no test of the divisor.  With a zero divisor and a zero dividend the
machine result is not-a-number; the dividend of both lines is clamped between
`-b` and `b`, so it is zero whenever the divisor is. -/
def divide (a b : ℚ) : FloatValue := if b = 0 then .NaN else .num (a / b)

/-- The local `DragExtents` of `OnDragCamera` (lines 227-228). -/
def OnDragCamera.DragExtents (w : World) (s : RTSCamera) : FVector2D :=
  w.ViewportSize.scale s.DragExtent

/-- The value assigned to `Delta.X` at line 231. -/
def OnDragCamera.DeltaX (w : World) (s : RTSCamera) : FloatValue :=
  let DragExtents := OnDragCamera.DragExtents w s
  let Delta := w.MousePositionOnViewport - s.DragStartLocation
  divide (FMath.Clamp Delta.X (-DragExtents.X) DragExtents.X) DragExtents.X

/-- The value assigned to `Delta.Y` at line 232. -/
def OnDragCamera.DeltaY (w : World) (s : RTSCamera) : FloatValue :=
  let DragExtents := OnDragCamera.DragExtents w s
  let Delta := w.MousePositionOnViewport - s.DragStartLocation
  divide (FMath.Clamp Delta.Y (-DragExtents.Y) DragExtents.Y) DragExtents.Y

/-- `URTSCamera::OnDragCamera` (lines 206-254). -/
def OnDragCamera (w : World) (Value : Bool) (s : RTSCamera) : RTSCamera :=
  if !s.IsDragging && Value then
    { s with IsDragging := true, DragStartLocation := w.MousePositionOnViewport }
  else if s.IsDragging && Value then
    RequestMoveCamera w.SpringArmForwardVector.X w.SpringArmForwardVector.Y
      (OnDragCamera.DeltaY w s * .num (-1))
      (RequestMoveCamera w.SpringArmRightVector.X w.SpringArmRightVector.Y
        (OnDragCamera.DeltaX w s) s)
  else if s.IsDragging && !Value then
    { s with IsDragging := false }
  else s

/-- One iteration of the loop of `ApplyMoveCameraCommands` (lines 272-277). -/
def ApplyMoveCameraCommands.body (w : World) (s : RTSCamera) (c : FMoveCameraCommand) :
    RTSCamera :=
  let Direction := FVector2D.Normalize w.InvSqrt ⟨c.X, c.Y⟩
  let Factor : FloatValue := .num s.MoveSpeed * c.Scale * .num s.DeltaSeconds
  let MovementX : FloatValue := .num Direction.X * Factor
  let MovementY : FloatValue := .num Direction.Y * Factor
  { s with RootLocation := s.RootLocation + ⟨MovementX, MovementY, .num 0⟩ }

/-- `URTSCamera::ApplyMoveCameraCommands` (lines 265-284). -/
def ApplyMoveCameraCommands (w : World) (s : RTSCamera) : RTSCamera :=
  { s.MoveCameraCommands.foldl (ApplyMoveCameraCommands.body w) s with
    MoveCameraCommands := [] }

/-- `URTSCamera::ConfigureSpringArm` (lines 302-318). -/
def ConfigureSpringArm (s : RTSCamera) : RTSCamera :=
  { s with
    DesiredZoomLength := s.MaximumZoomLength
    TargetArmLength := s.MaximumZoomLength
    bDoCollisionTest := false
    bEnableCameraLag := s.EnableCameraLag
    bEnableCameraRotationLag := s.EnableCameraRotationLag
    SpringArmRotation := FRotator.MakeFromEuler ⟨0, s.StartingYAngle, s.StartingZAngle⟩ }

/-- `URTSCamera::TryToFindBoundaryVolumeReference` (lines 320-339). -/
def TryToFindBoundaryVolumeReference (w : World) (s : RTSCamera) : RTSCamera :=
  match w.BlockingVolumes with
  | [] => s
  | v :: _ => { s with BoundaryVolume := some v }

/-- The state changes of `URTSCamera::BeginPlay` (lines 61-79); its other
steps act on the player controller and the input subsystem only. -/
def BeginPlay (w : World) (s : RTSCamera) : RTSCamera :=
  TryToFindBoundaryVolumeReference w (ConfigureSpringArm s)

/-- `USceneComponent::AddRelativeLocation` on `Root`. -/
def AddRelativeLocation (DeltaLocation : FVector) (s : RTSCamera) : RTSCamera :=
  { s with RootLocation := s.RootLocation + DeltaLocation.toLocation }

/-- The local `Movement` of `EdgeScrollLeft` (lines 484-490). -/
def EdgeScrollLeft.Movement (w : World) : ℚ :=
  let NormalizedMousePosition :=
    1 - UKismetMathLibrary.NormalizeToRange w.MousePositionOnViewport.X 0
          (w.ViewportSize.X * FLOAT_0_05)
  UKismetMathLibrary.FClamp NormalizedMousePosition 0 1

/-- `URTSCamera::EdgeScrollLeft` (lines 476-495). -/
def EdgeScrollLeft (w : World) (s : RTSCamera) : RTSCamera :=
  AddRelativeLocation
    ((((w.RootRightVector.scale (-1)).scale (EdgeScrollLeft.Movement w)).scale
      s.EdgeScrollSpeed).scale s.DeltaSeconds) s

/-- The local `Movement` of `EdgeScrollRight` (lines 501-507). -/
def EdgeScrollRight.Movement (w : World) : ℚ :=
  let NormalizedMousePosition :=
    UKismetMathLibrary.NormalizeToRange w.MousePositionOnViewport.X
      (w.ViewportSize.X * FLOAT_0_95) w.ViewportSize.X
  UKismetMathLibrary.FClamp NormalizedMousePosition 0 1

/-- `URTSCamera::EdgeScrollRight` (lines 497-511). -/
def EdgeScrollRight (w : World) (s : RTSCamera) : RTSCamera :=
  AddRelativeLocation
    (((w.RootRightVector.scale (EdgeScrollRight.Movement w)).scale
      s.EdgeScrollSpeed).scale s.DeltaSeconds) s

/-- The local `Movement` of `EdgeScrollUp` (lines 517-523). -/
def EdgeScrollUp.Movement (w : World) : ℚ :=
  let NormalizedMousePosition :=
    UKismetMathLibrary.NormalizeToRange w.MousePositionOnViewport.Y 0
      (w.ViewportSize.Y * FLOAT_0_05)
  1 - UKismetMathLibrary.FClamp NormalizedMousePosition 0 1

/-- `URTSCamera::EdgeScrollUp` (lines 513-527). -/
def EdgeScrollUp (w : World) (s : RTSCamera) : RTSCamera :=
  AddRelativeLocation
    (((w.RootForwardVector.scale (EdgeScrollUp.Movement w)).scale
      s.EdgeScrollSpeed).scale s.DeltaSeconds) s

/-- The local `Movement` of `EdgeScrollDown` (lines 533-539). -/
def EdgeScrollDown.Movement (w : World) : ℚ :=
  let NormalizedMousePosition :=
    UKismetMathLibrary.NormalizeToRange w.MousePositionOnViewport.Y
      (w.ViewportSize.Y * FLOAT_0_95) w.ViewportSize.Y
  UKismetMathLibrary.FClamp NormalizedMousePosition 0 1

/-- `URTSCamera::EdgeScrollDown` (lines 529-543). -/
def EdgeScrollDown (w : World) (s : RTSCamera) : RTSCamera :=
  AddRelativeLocation
    ((((w.RootForwardVector.scale (-1)).scale (EdgeScrollDown.Movement w)).scale
      s.EdgeScrollSpeed).scale s.DeltaSeconds) s

/-- `URTSCamera::ConditionallyPerformEdgeScrolling` (lines 465-474). -/
def ConditionallyPerformEdgeScrolling (w : World) (s : RTSCamera) : RTSCamera :=
  if s.EnableEdgeScrolling && !s.IsDragging then
    EdgeScrollDown w (EdgeScrollUp w (EdgeScrollRight w (EdgeScrollLeft w s)))
  else s

/-- `URTSCamera::FollowTargetIfSet` (lines 545-554). -/
def FollowTargetIfSet (w : World) (s : RTSCamera) : RTSCamera :=
  match s.CameraFollowTarget with
  | some Target => { s with RootLocation := (w.GetActorLocation Target).toLocation }
  | none => s

/-- `URTSCamera::SmoothTargetArmLengthToDesiredZoom` (lines 556-567). -/
def SmoothTargetArmLengthToDesiredZoom (s : RTSCamera) : RTSCamera :=
  { s with
    TargetArmLength :=
      FMath.FInterpTo s.TargetArmLength s.DesiredZoomLength s.DeltaSeconds s.ZoomCatchupSpeed }

/-- The three messages printed at lines 610-635, in the order printed. -/
def OutOfBoundsMessages : List String :=
  ["Or add a `RTSCameraBoundsVolume` actor to the scene.",
   "Increase trace length or change the starting position of the parent actor for the spring arm.",
   "Error: AC_RTSCamera needs to be placed on the ground!"]

/-- The line trace of lines 581-591, from above to below the root location. -/
def GroundTrace (w : World) (s : RTSCamera) : Option FVector :=
  let RootWorldLocation := s.RootLocation
  w.LineTraceSingle
    ⟨RootWorldLocation.X, RootWorldLocation.Y,
      RootWorldLocation.Z + .num s.FindGroundTraceLength⟩
    ⟨RootWorldLocation.X, RootWorldLocation.Y,
      RootWorldLocation.Z - .num s.FindGroundTraceLength⟩

/-- `URTSCamera::ConditionallyKeepCameraAtDesiredZoomAboveGround`
(lines 569-638): the new state and the messages printed. -/
def ConditionallyKeepCameraAtDesiredZoomAboveGround (w : World) (s : RTSCamera) :
    RTSCamera × List String :=
  if s.EnableDynamicCameraHeight then
    match GroundTrace w s with
    | some HitLocation =>
      ({ s with
          RootLocation := ⟨.num HitLocation.X, .num HitLocation.Y, .num HitLocation.Z⟩ }, [])
    | none =>
      if !s.IsCameraOutOfBoundsErrorAlreadyDisplayed then
        ({ s with IsCameraOutOfBoundsErrorAlreadyDisplayed := true }, OutOfBoundsMessages)
      else (s, [])
  else (s, [])

/-- `URTSCamera::ConditionallyApplyCameraBounds` (lines 640-665).  The call
`UKismetMathLibrary::Clamp` takes and returns `int32`: its three arguments are
converted on the way in, its result is converted back to a coordinate. -/
def ConditionallyApplyCameraBounds (w : World) (s : RTSCamera) : RTSCamera :=
  match s.BoundaryVolume with
  | some Volume =>
    let RootWorldLocation := s.RootLocation
    let Origin := (w.GetActorBounds Volume).1
    let Extents := (w.GetActorBounds Volume).2
    { s with
      RootLocation :=
        ⟨.num (UKismetMathLibrary.Clamp (RootWorldLocation.X.toInt32 w.NaNToInt32)
            (toInt32 (Origin.X - Extents.X)) (toInt32 (Origin.X + Extents.X)) : Int),
         .num (UKismetMathLibrary.Clamp (RootWorldLocation.Y.toInt32 w.NaNToInt32)
            (toInt32 (Origin.Y - Extents.Y)) (toInt32 (Origin.Y + Extents.Y)) : Int),
         RootWorldLocation.Z⟩ }
  | none => s

/-- The state at the ground-height stage of a tick: after lines 88-90. -/
def TickComponent.beforeGround (w : World) (DeltaTime : ℚ) (s : RTSCamera) : RTSCamera :=
  ConditionallyPerformEdgeScrolling w
    (ApplyMoveCameraCommands w { s with DeltaSeconds := DeltaTime })

/-- `URTSCamera::TickComponent` (lines 81-95): the new state and the messages
printed during the tick. -/
def TickComponent (w : World) (DeltaTime : ℚ) (s : RTSCamera) : RTSCamera × List String :=
  let r := ConditionallyKeepCameraAtDesiredZoomAboveGround w (TickComponent.beforeGround w DeltaTime s)
  (ConditionallyApplyCameraBounds w
      (FollowTargetIfSet w (SmoothTargetArmLengthToDesiredZoom r.1)),
    r.2)

/-- The constructor `URTSCamera::URTSCamera` (lines 14-34).  The members it
does not assign start at zero, false, empty or null, the flags of the spring
arm at the defaults of the engine. -/
def URTSCamera : RTSCamera where
  DragExtent := 6 / 10
  EdgeScrollSpeed := 50
  DistanceFromEdgeThreshold := 1 / 10
  EnableCameraLag := true
  EnableCameraRotationLag := true
  EnableDynamicCameraHeight := true
  EnableEdgeScrolling := true
  FindGroundTraceLength := 100000
  MaximumZoomLength := 5000
  MinimumZoomLength := 500
  MoveSpeed := 50
  RotateSpeed := 45
  StartingYAngle := -45
  StartingZAngle := 0
  ZoomCatchupSpeed := 4
  ZoomSpeed := -200
  DesiredZoomLength := 0
  DeltaSeconds := 0
  IsDragging := false
  DragStartLocation := ⟨0, 0⟩
  IsCameraOutOfBoundsErrorAlreadyDisplayed := false
  MoveCameraCommands := []
  CameraFollowTarget := none
  BoundaryVolume := none
  RootLocation := ⟨.num 0, .num 0, .num 0⟩
  RootRotation := ⟨0, 0, 0⟩
  TargetArmLength := 0
  SpringArmRotation := ⟨0, 0, 0⟩
  bDoCollisionTest := true
  bEnableCameraLag := false
  bEnableCameraRotationLag := false

/-- A world for examples: viewport 1000 x 600, pointer at its centre, unit
direction vectors, a trace that always misses, actors at the origin with
half extents 100. -/
def exampleWorld : World where
  MousePositionOnViewport := ⟨500, 300⟩
  ViewportSize := ⟨1000, 600⟩
  SpringArmForwardVector := ⟨1, 0, 0⟩
  SpringArmRightVector := ⟨0, 1, 0⟩
  RootForwardVector := ⟨1, 0, 0⟩
  RootRightVector := ⟨0, 1, 0⟩
  LineTraceSingle := fun _ _ => none
  GetActorLocation := fun _ => ⟨0, 0, 0⟩
  GetActorBounds := fun _ => (⟨0, 0, 0⟩, ⟨100, 100, 100⟩)
  BlockingVolumes := []
  InvSqrt := fun _ => 1
  NaNToInt32 := -2147483648

/-! ## Event sequences -/

/-- A finite sequence of `OnZoomCamera` events, first delta first. -/
def zoomEvents (s : RTSCamera) (deltas : List ℚ) : RTSCamera :=
  deltas.foldl (fun t d => OnZoomCamera d t) s

/-- The planar step of the specification of the queue: the position `p`
moved by the normalized direction of `c` times `MoveSpeed`, the intensity of
`c` and `DeltaSeconds`, on X and Y only. -/
def planarStep (w : World) (MoveSpeed DeltaSeconds : ℚ) (p : FLocation)
    (c : FMoveCameraCommand) : FLocation :=
  ⟨p.X + .num (FVector2D.Normalize w.InvSqrt ⟨c.X, c.Y⟩).X * .num MoveSpeed * c.Scale
      * .num DeltaSeconds,
   p.Y + .num (FVector2D.Normalize w.InvSqrt ⟨c.X, c.Y⟩).Y * .num MoveSpeed * c.Scale
      * .num DeltaSeconds,
   p.Z⟩

/-- The left-edge intensity the specification describes: the activation band
is the fraction `t` of the viewport width `W`. -/
def thresholdLeftIntensity (t W x : ℚ) : ℚ := max 0 (min (1 - x / (t * W)) 1)

/-- The component as constructed, with a resolved boundary volume and the
root at the given location. -/
def boundedCamera (Location : FVector) : RTSCamera :=
  { URTSCamera with BoundaryVolume := some 0, RootLocation := Location.toLocation }

/-- The world `w` with the pointer moved to the given position. -/
def World.withPointer (w : World) (Pointer : FVector2D) : World :=
  { w with MousePositionOnViewport := Pointer }

/-- The example world with the pointer at the given position. -/
def pointerWorld (Pointer : FVector2D) : World :=
  exampleWorld.withPointer Pointer

/-- The example world with every actor at the given location. -/
def targetWorld (Location : FVector) : World :=
  { exampleWorld with GetActorLocation := fun _ => Location }

/-- The example world with a viewport of width zero. -/
def zeroWidthWorld : World :=
  { exampleWorld with ViewportSize := ⟨0, 600⟩ }

/-- The component as constructed, in the middle of a drag that started at
the given pointer position. -/
def draggingCamera (Start : FVector2D) : RTSCamera :=
  { URTSCamera with IsDragging := true, DragStartLocation := Start }

/-- A finite sequence of `OnDragCamera` events, each with the world it is
received in, first event first. -/
def dragEvents (s : RTSCamera) (es : List (World × Bool)) : RTSCamera :=
  es.foldl (fun t e => OnDragCamera e.1 e.2 t) s

/-- The operations of the component: the tick, `BeginPlay`, the two calls of
the follow-target interface and the input handlers. -/
inductive Operation where
  | BeginPlay
  | TickComponent (DeltaTime : ℚ)
  | FollowTarget (Target : Option AActor)
  | UnFollowTarget
  | OnZoomCamera (Value : ℚ)
  | OnRotateCamera (Value : ℚ)
  | OnTurnCameraLeft
  | OnTurnCameraRight
  | OnMoveCameraYAxis (Value : ℚ)
  | OnMoveCameraXAxis (Value : ℚ)
  | OnDragCamera (Value : Bool)

/-- The state after an operation performed in the world `w`. -/
def runOperation (w : World) : Operation → RTSCamera → RTSCamera
  | .BeginPlay, s => BeginPlay w s
  | .TickComponent DeltaTime, s => (TickComponent w DeltaTime s).1
  | .FollowTarget Target, s => FollowTarget Target s
  | .UnFollowTarget, s => UnFollowTarget s
  | .OnZoomCamera Value, s => OnZoomCamera Value s
  | .OnRotateCamera Value, s => OnRotateCamera Value s
  | .OnTurnCameraLeft, s => OnTurnCameraLeft s
  | .OnTurnCameraRight, s => OnTurnCameraRight s
  | .OnMoveCameraYAxis Value, s => OnMoveCameraYAxis w Value s
  | .OnMoveCameraXAxis Value, s => OnMoveCameraXAxis w Value s
  | .OnDragCamera Value, s => OnDragCamera w Value s

/-- Whether the ground trace of the tick `(w, DeltaTime)` from state `s`
misses: the trace is made at the location the root has after lines 88-90. -/
def TickComponent.probeMisses (w : World) (DeltaTime : ℚ) (s : RTSCamera) : Bool :=
  (GroundTrace w (TickComponent.beforeGround w DeltaTime s)).isNone

/-- A finite sequence of ticks, each with its world and its `DeltaTime`, first
tick first: for each tick, whether its ground trace misses and the messages
it prints. -/
def tickTrace (s : RTSCamera) : List (World × ℚ) → List (Bool × List String)
  | [] => []
  | t :: ts =>
    (TickComponent.probeMisses t.1 t.2 s, (TickComponent t.1 t.2 s).2)
      :: tickTrace (TickComponent t.1 t.2 s).1 ts

/-- The flags of a list with only the first `true` kept. -/
def firstOnly : List Bool → List Bool
  | [] => []
  | true :: bs => true :: bs.map (fun _ => false)
  | false :: bs => false :: firstOnly bs

/-- The state `s` with the root location, the command queue and the
out-of-bounds latch erased: what is left is everything else. -/
def exceptLocation (s : RTSCamera) : RTSCamera :=
  { s with
    RootLocation := ⟨.num 0, .num 0, .num 0⟩
    MoveCameraCommands := []
    IsCameraOutOfBoundsErrorAlreadyDisplayed := false }

/-- The state `s` with the root location, the spring-arm length, the command
queue, `DeltaSeconds` and the out-of-bounds latch erased. -/
def exceptTickOutputs (s : RTSCamera) : RTSCamera :=
  { exceptLocation s with
    TargetArmLength := 0
    DeltaSeconds := 0 }

/-- A finite sequence of ticks, each with its world and its `DeltaTime`, first
tick first: the state after the last one. -/
def tickAll (s : RTSCamera) (ts : List (World × ℚ)) : RTSCamera :=
  ts.foldl (fun t e => (TickComponent e.1 e.2 t).1) s

/-- An `OnZoomCamera` call or a tick. -/
inductive ZoomEvent where
  | zoom (Value : ℚ)
  | tick (w : World) (DeltaTime : ℚ)

/-- The state after one `ZoomEvent`. -/
def zoomStep (s : RTSCamera) : ZoomEvent → RTSCamera
  | .zoom Value => OnZoomCamera Value s
  | .tick w DeltaTime => (TickComponent w DeltaTime s).1

/-- Any interleaving of `OnZoomCamera` calls and ticks, first event first. -/
def zoomAndTicks (s : RTSCamera) (es : List ZoomEvent) : RTSCamera :=
  es.foldl zoomStep s

/-- The example world over flat ground at height 0: every trace from a start
whose X and Y are numbers hits right below its start. -/
def groundWorld : World :=
  { exampleWorld with
    LineTraceSingle := fun Start _ =>
      match Start.X, Start.Y with
      | .num x, .num y => some ⟨x, y, 0⟩
      | _, _ => none }

/-- The displacement of one edge in the specification of edge scrolling:
`Intensity * EdgeScrollSpeed * DeltaSeconds` along `Direction`. -/
def edgeDisplacement (Direction : FVector) (Intensity EdgeScrollSpeed DeltaSeconds : ℚ) :
    FVector :=
  Direction.scale (Intensity * EdgeScrollSpeed * DeltaSeconds)

/-- The sum of the four edge displacements: along -right for the left edge,
+right for the right edge, +forward for the top edge, -forward for the bottom
edge, each with the `Movement` factor of its edge. -/
def edgeScrollSum (w : World) (s : RTSCamera) : FVector :=
  edgeDisplacement (w.RootRightVector.scale (-1)) (EdgeScrollLeft.Movement w)
      s.EdgeScrollSpeed s.DeltaSeconds
    + edgeDisplacement w.RootRightVector (EdgeScrollRight.Movement w)
      s.EdgeScrollSpeed s.DeltaSeconds
    + edgeDisplacement w.RootForwardVector (EdgeScrollUp.Movement w)
      s.EdgeScrollSpeed s.DeltaSeconds
    + edgeDisplacement (w.RootForwardVector.scale (-1)) (EdgeScrollDown.Movement w)
      s.EdgeScrollSpeed s.DeltaSeconds

/-! ## Lemmas on the engine math -/

theorem FMath.Clamp_eq_max_min (X lo hi : ℚ) :
    FMath.Clamp X lo hi = max lo (min X hi) := by
  unfold FMath.Clamp FMath.Max FMath.Min
  split_ifs with h1 h2 h2
  · rw [min_eq_left h1.le, max_eq_right h2.le]
  · rw [min_eq_left h1.le, max_eq_left (not_lt.mp h2)]
  · rw [min_eq_right (not_lt.mp h1), max_eq_right h2.le]
  · rw [min_eq_right (not_lt.mp h1), max_eq_left (not_lt.mp h2)]

theorem FMath.Clamp_mem (X lo hi : ℚ) (h : lo ≤ hi) :
    lo ≤ FMath.Clamp X lo hi ∧ FMath.Clamp X lo hi ≤ hi := by
  rw [FMath.Clamp_eq_max_min]
  exact ⟨le_max_left _ _, max_le h (min_le_right _ _)⟩

theorem zoomEvents_append (s : RTSCamera) (ds : List ℚ) (d : ℚ) :
    zoomEvents s (ds ++ [d]) = OnZoomCamera d (zoomEvents s ds) := by
  simp [zoomEvents, List.foldl_append]

theorem zoomEvents_config (s : RTSCamera) (ds : List ℚ) :
    (zoomEvents s ds).MinimumZoomLength = s.MinimumZoomLength ∧
    (zoomEvents s ds).MaximumZoomLength = s.MaximumZoomLength ∧
    (zoomEvents s ds).ZoomSpeed = s.ZoomSpeed := by
  induction ds using List.reverseRecOn with
  | nil => simp [zoomEvents]
  | append_singleton ds d ih =>
    rw [zoomEvents_append]
    simpa [OnZoomCamera] using ih

/-! ## Claims -/

/-- C1: with `MinimumZoomLength ≤ MaximumZoomLength`, from any starting
`DesiredZoomLength` and after any finite sequence of `OnZoomCamera` deltas,
one more call with delta `d` leaves `DesiredZoomLength` equal to the clamp of
`previous + d * ZoomSpeed` to `[MinimumZoomLength, MaximumZoomLength]`, which
lies in that interval. -/
theorem C1_OnZoomCamera_clamps (s : RTSCamera)
    (h : s.MinimumZoomLength ≤ s.MaximumZoomLength) (ds : List ℚ) (d : ℚ) :
    (zoomEvents s (ds ++ [d])).DesiredZoomLength
        = max s.MinimumZoomLength
            (min ((zoomEvents s ds).DesiredZoomLength + d * s.ZoomSpeed) s.MaximumZoomLength) ∧
    s.MinimumZoomLength ≤ (zoomEvents s (ds ++ [d])).DesiredZoomLength ∧
    (zoomEvents s (ds ++ [d])).DesiredZoomLength ≤ s.MaximumZoomLength := by
  obtain ⟨hmin, hmax, hsp⟩ := zoomEvents_config s ds
  have e : (zoomEvents s (ds ++ [d])).DesiredZoomLength
      = FMath.Clamp ((zoomEvents s ds).DesiredZoomLength + d * s.ZoomSpeed)
          s.MinimumZoomLength s.MaximumZoomLength := by
    rw [zoomEvents_append]
    simp [OnZoomCamera, hmin, hmax, hsp]
  rw [e]
  exact ⟨FMath.Clamp_eq_max_min _ _ _, FMath.Clamp_mem _ _ _ h⟩

/-- The constructor's zoom limits are ordered; one zoom step from there. -/
theorem C1_OnZoomCamera_clamps_witness :
    URTSCamera.MinimumZoomLength ≤ URTSCamera.MaximumZoomLength ∧
    (zoomEvents URTSCamera ([1, 2] ++ [-3])).DesiredZoomLength
        = max URTSCamera.MinimumZoomLength
            (min ((zoomEvents URTSCamera [1, 2]).DesiredZoomLength + -3 * URTSCamera.ZoomSpeed)
              URTSCamera.MaximumZoomLength) :=
  ⟨by norm_num [URTSCamera],
   (C1_OnZoomCamera_clamps URTSCamera (by norm_num [URTSCamera]) [1, 2] (-3)).1⟩

theorem FVector.ext_iff3 (a b : FVector) : a = b ↔ a.X = b.X ∧ a.Y = b.Y ∧ a.Z = b.Z := by
  cases a; cases b; simp

theorem FVector.add_def (a b : FVector) : a + b = ⟨a.X + b.X, a.Y + b.Y, a.Z + b.Z⟩ := rfl

theorem FLocation.eq_iff_components (a b : FLocation) : a = b ↔ a.X = b.X ∧ a.Y = b.Y ∧ a.Z = b.Z := by
  cases a; cases b; simp

theorem FLocation.add_components (a b : FLocation) : a + b = ⟨a.X + b.X, a.Y + b.Y, a.Z + b.Z⟩ := rfl

@[simp]
theorem FloatValue.num_add_num (a b : ℚ) : (.num a + .num b : FloatValue) = .num (a + b) := rfl

@[simp]
theorem FloatValue.num_sub_num (a b : ℚ) : (.num a - .num b : FloatValue) = .num (a - b) := rfl

@[simp]
theorem FloatValue.num_mul_num (a b : ℚ) : (.num a * .num b : FloatValue) = .num (a * b) := rfl

@[simp]
theorem FloatValue.NaN_add (x : FloatValue) : .NaN + x = .NaN := by cases x <;> rfl

@[simp]
theorem FloatValue.add_NaN (x : FloatValue) : x + .NaN = .NaN := by cases x <;> rfl

@[simp]
theorem FloatValue.NaN_mul (x : FloatValue) : .NaN * x = .NaN := by cases x <;> rfl

@[simp]
theorem FloatValue.mul_NaN (x : FloatValue) : x * .NaN = .NaN := by cases x <;> rfl

@[simp]
theorem FloatValue.add_num_zero (x : FloatValue) : x + .num 0 = x := by
  cases x <;> simp

theorem FloatValue.add_num_add_num (x : FloatValue) (a b : ℚ) :
    x + .num a + .num b = x + .num (a + b) := by
  cases x <;> simp [add_assoc]

theorem body_RootLocation (w : World) (s : RTSCamera) (c : FMoveCameraCommand) :
    ApplyMoveCameraCommands.body w s c
      = { s with RootLocation := planarStep w s.MoveSpeed s.DeltaSeconds s.RootLocation c } := by
  simp only [ApplyMoveCameraCommands.body, planarStep, FLocation.add_components]
  congr 1
  rw [FLocation.eq_iff_components]
  refine ⟨?_, ?_, ?_⟩
  · cases c.Scale <;> cases s.RootLocation.X <;> simp
    ring
  · cases c.Scale <;> cases s.RootLocation.Y <;> simp
    ring
  · simp

theorem foldl_body (w : World) (cmds : List FMoveCameraCommand) (s : RTSCamera) :
    cmds.foldl (ApplyMoveCameraCommands.body w) s
      = { s with
          RootLocation := cmds.foldl (planarStep w s.MoveSpeed s.DeltaSeconds) s.RootLocation } := by
  induction cmds generalizing s with
  | nil => rfl
  | cons c cs ih =>
    rw [List.foldl_cons, List.foldl_cons, ih, body_RootLocation]

theorem toInt32_half : toInt32 (1 / 2) = 0 := by
  simp [toInt32, Int.floor_eq_iff]; norm_num

theorem toInt32_neg_half : toInt32 (-1 / 2) = 0 := by
  have h : ¬ ((0 : ℚ) ≤ -1 / 2) := by norm_num
  simp only [toInt32, h, if_false, Int.ceil_eq_iff]
  norm_num

theorem toInt32_inv_two : toInt32 2⁻¹ = 0 := by
  simpa using toInt32_half

theorem toInt32_intCast (z : Int) : toInt32 (z : ℚ) = z := by
  simp [toInt32]

/-- C3: at origin (0,0,0) with half extents (100,100,100), the position
(1/2, 1/2, 7), which is inside the region, is moved to (0, 0, 7) by
`ConditionallyApplyCameraBounds`: the clamp called is the integer one, which
discards the fractional part of the coordinates. -/
theorem C3_bounds_move_inside_position :
    (ConditionallyApplyCameraBounds exampleWorld (boundedCamera ⟨1 / 2, 1 / 2, 7⟩)).RootLocation
      = FVector.toLocation ⟨0, 0, 7⟩ ∧
    (ConditionallyApplyCameraBounds exampleWorld (boundedCamera ⟨1 / 2, 1 / 2, 7⟩)).RootLocation
      ≠ (boundedCamera ⟨1 / 2, 1 / 2, 7⟩).RootLocation := by
  have e : (ConditionallyApplyCameraBounds exampleWorld
      (boundedCamera ⟨1 / 2, 1 / 2, 7⟩)).RootLocation = FVector.toLocation ⟨0, 0, 7⟩ := by
    have h100 : toInt32 (100 : ℚ) = 100 := toInt32_intCast 100
    have hm100 : toInt32 (-100 : ℚ) = -100 := by simpa using toInt32_intCast (-100)
    simp [ConditionallyApplyCameraBounds, boundedCamera, exampleWorld, toInt32_inv_two, h100, hm100,
      UKismetMathLibrary.Clamp, FMath.ClampInt, FVector.toLocation, FloatValue.toInt32]
  refine ⟨e, ?_⟩
  rw [e]
  simp [boundedCamera, FVector.toLocation]

/-- C4: a tick while following a target at (1/2, -1/2, 3), inside the region
of origin (0,0,0) and half extents (100,100,100), leaves the rig at (0, 0, 3)
and not at the target's position: the bounds stage discards the fractional
part of the coordinates. -/
theorem C4_tick_follow_target_truncated :
    (TickComponent (targetWorld ⟨1 / 2, -1 / 2, 3⟩) (1 / 60)
        (FollowTarget (some 1) (boundedCamera ⟨0, 0, 0⟩))).1.RootLocation
      = FVector.toLocation ⟨0, 0, 3⟩ := by
  have h100 : toInt32 (100 : ℚ) = 100 := toInt32_intCast 100
  have hm100 : toInt32 (-100 : ℚ) = -100 := by simpa using toInt32_intCast (-100)
  simp [TickComponent, ConditionallyApplyCameraBounds, FollowTargetIfSet, FollowTarget,
    SmoothTargetArmLengthToDesiredZoom, ConditionallyKeepCameraAtDesiredZoomAboveGround,
    TickComponent.beforeGround, ConditionallyPerformEdgeScrolling, ApplyMoveCameraCommands,
    EdgeScrollLeft, EdgeScrollRight, EdgeScrollUp, EdgeScrollDown, AddRelativeLocation,
    GroundTrace, boundedCamera, targetWorld, exampleWorld, URTSCamera,
    toInt32_inv_two, toInt32_neg_half, h100, hm100, UKismetMathLibrary.Clamp, FMath.ClampInt,
    FVector.toLocation, FloatValue.toInt32]

/-- C5: with the constructor's `DistanceFromEdgeThreshold` (1/10) and a
viewport 1000 wide, a pointer at x = 70 lies in the configured band, where the
specified intensity is 3/10; `EdgeScrollLeft` computes 0, its band being the
constant `0.05f` of the width whatever the configured threshold. -/
theorem C5_EdgeScrollLeft_ignores_threshold :
    EdgeScrollLeft.Movement (pointerWorld ⟨70, 300⟩) = 0 ∧
    thresholdLeftIntensity URTSCamera.DistanceFromEdgeThreshold
      (pointerWorld ⟨70, 300⟩).ViewportSize.X 70 = 3 / 10 := by
  constructor
  · norm_num [EdgeScrollLeft.Movement, pointerWorld, World.withPointer, exampleWorld, FLOAT_0_05,
      UKismetMathLibrary.NormalizeToRange, UKismetMathLibrary.FClamp, FMath.Clamp, FMath.Max,
      FMath.Min]
  · norm_num [thresholdLeftIntensity, pointerWorld, World.withPointer, exampleWorld, URTSCamera]

theorem NormalizeToRange_of_lt (x lo hi : ℚ) (h : lo < hi) :
    UKismetMathLibrary.NormalizeToRange x lo hi = (x - lo) / (hi - lo) := by
  simp [UKismetMathLibrary.NormalizeToRange, h.ne, not_lt.mpr h.le]

theorem near_closed (x b : ℚ) (hb : 0 < b) :
    UKismetMathLibrary.FClamp (1 - UKismetMathLibrary.NormalizeToRange x 0 b) 0 1
      = max 0 (min (1 - x / b) 1) := by
  rw [NormalizeToRange_of_lt x 0 b hb, UKismetMathLibrary.FClamp, FMath.Clamp_eq_max_min]
  simp

theorem far_closed (x lo hi : ℚ) (h : lo < hi) :
    UKismetMathLibrary.FClamp (UKismetMathLibrary.NormalizeToRange x lo hi) 0 1
      = max 0 (min ((x - lo) / (hi - lo)) 1) := by
  rw [NormalizeToRange_of_lt x lo hi h, UKismetMathLibrary.FClamp, FMath.Clamp_eq_max_min]

theorem up_closed (x b : ℚ) (hb : 0 < b) :
    1 - UKismetMathLibrary.FClamp (UKismetMathLibrary.NormalizeToRange x 0 b) 0 1
      = max 0 (min (1 - x / b) 1) := by
  rw [NormalizeToRange_of_lt x 0 b hb, UKismetMathLibrary.FClamp, FMath.Clamp_eq_max_min]
  simp only [sub_zero]
  rcases le_total (x / b) 0 with h0 | h0
  · rw [min_eq_left (h0.trans zero_le_one), max_eq_left h0, min_eq_right (by linarith)]
    norm_num
  · rcases le_total (x / b) 1 with h1 | h1
    · rw [min_eq_left h1, max_eq_right h0, min_eq_left (by linarith), max_eq_right (by linarith)]
    · rw [min_eq_right h1, max_eq_right zero_le_one, min_eq_left (by linarith),
        max_eq_left (by linarith)]
      norm_num

theorem near_range (x b : ℚ) :
    0 ≤ max 0 (min (1 - x / b) 1) ∧ max 0 (min (1 - x / b) 1) ≤ 1 :=
  ⟨le_max_left _ _, max_le zero_le_one (min_le_right _ _)⟩

theorem near_antitone (x y b : ℚ) (hb : 0 < b) (h : x ≤ y) :
    max 0 (min (1 - y / b) 1) ≤ max 0 (min (1 - x / b) 1) :=
  max_le_max le_rfl
    (min_le_min (sub_le_sub_left (div_le_div_of_nonneg_right h hb.le) 1) le_rfl)

theorem near_edge (x b : ℚ) (hb : 0 < b) (h : x ≤ 0) : max 0 (min (1 - x / b) 1) = 1 := by
  have h1 : x / b ≤ 0 := div_nonpos_of_nonpos_of_nonneg h hb.le
  rw [min_eq_right (by linarith), max_eq_right zero_le_one]

theorem near_inner (x b : ℚ) (hb : 0 < b) (h : b ≤ x) : max 0 (min (1 - x / b) 1) = 0 := by
  have h1 : 1 ≤ x / b := (one_le_div hb).mpr h
  rw [min_eq_left (by linarith), max_eq_left (by linarith)]

theorem far_range (v : ℚ) : 0 ≤ max 0 (min v 1) ∧ max 0 (min v 1) ≤ 1 :=
  ⟨le_max_left _ _, max_le zero_le_one (min_le_right _ _)⟩

theorem far_monotone (x y lo hi : ℚ) (hl : lo < hi) (h : x ≤ y) :
    max 0 (min ((x - lo) / (hi - lo)) 1) ≤ max 0 (min ((y - lo) / (hi - lo)) 1) :=
  max_le_max le_rfl
    (min_le_min (div_le_div_of_nonneg_right (sub_le_sub_right h lo) (sub_pos.mpr hl).le) le_rfl)

theorem far_edge (x lo hi : ℚ) (hl : lo < hi) (h : hi ≤ x) :
    max 0 (min ((x - lo) / (hi - lo)) 1) = 1 := by
  have h1 : 1 ≤ (x - lo) / (hi - lo) := (one_le_div (sub_pos.mpr hl)).mpr (by linarith)
  rw [min_eq_right h1, max_eq_right zero_le_one]

theorem far_inner (x lo hi : ℚ) (hl : lo < hi) (h : x ≤ lo) :
    max 0 (min ((x - lo) / (hi - lo)) 1) = 0 := by
  have h1 : (x - lo) / (hi - lo) ≤ 0 :=
    div_nonpos_of_nonpos_of_nonneg (by linarith) (sub_pos.mpr hl).le
  rw [min_eq_left (h1.trans zero_le_one), max_eq_left h1]

theorem FLOAT_0_05_pos : 0 < FLOAT_0_05 := by norm_num [FLOAT_0_05]

theorem FLOAT_0_95_lt_one : FLOAT_0_95 < 1 := by norm_num [FLOAT_0_95]

theorem band_near_pos (W : ℚ) (h : 0 < W) : 0 < W * FLOAT_0_05 :=
  mul_pos h FLOAT_0_05_pos

theorem band_far_lt (W : ℚ) (h : 0 < W) : W * FLOAT_0_95 < W := by
  have := mul_lt_mul_of_pos_left FLOAT_0_95_lt_one h
  linarith

theorem EdgeScrollLeft_closed (w : World) (h : 0 < w.ViewportSize.X) (p : FVector2D) :
    EdgeScrollLeft.Movement (w.withPointer p)
      = max 0 (min (1 - p.X / (w.ViewportSize.X * FLOAT_0_05)) 1) :=
  near_closed p.X _ (band_near_pos _ h)

theorem EdgeScrollUp_closed (w : World) (h : 0 < w.ViewportSize.Y) (p : FVector2D) :
    EdgeScrollUp.Movement (w.withPointer p)
      = max 0 (min (1 - p.Y / (w.ViewportSize.Y * FLOAT_0_05)) 1) :=
  up_closed p.Y _ (band_near_pos _ h)

theorem EdgeScrollRight_closed (w : World) (h : 0 < w.ViewportSize.X) (p : FVector2D) :
    EdgeScrollRight.Movement (w.withPointer p)
      = max 0 (min ((p.X - w.ViewportSize.X * FLOAT_0_95)
          / (w.ViewportSize.X - w.ViewportSize.X * FLOAT_0_95)) 1) :=
  far_closed p.X _ _ (band_far_lt _ h)

theorem EdgeScrollDown_closed (w : World) (h : 0 < w.ViewportSize.Y) (p : FVector2D) :
    EdgeScrollDown.Movement (w.withPointer p)
      = max 0 (min ((p.Y - w.ViewportSize.Y * FLOAT_0_95)
          / (w.ViewportSize.Y - w.ViewportSize.Y * FLOAT_0_95)) 1) :=
  far_closed p.Y _ _ (band_far_lt _ h)

/-- C6: for a positive viewport size (W, H) and pointer positions `p`, `q`,
each of the four edge intensities (the clamped `Movement` factor) lies in
[0,1]; it is monotone in the pointer coordinate (a pointer closer to the left
edge, that is with the smaller X, never gets the smaller left intensity; the
same toward larger X for the right edge, smaller Y for the top edge, larger Y
for the bottom edge); it is exactly 1 when the pointer is on the edge itself
(X = 0, X = W, Y = 0, Y = H; also beyond it); and it is exactly 0 for every
pointer position of the viewport outside the activation band of the edge,
which is [0, W * 0.05f] for left, [W * 0.95f, W] for right, [0, H * 0.05f]
for top and [H * 0.95f, H] for bottom. -/
theorem C6_edge_intensity (w : World) (hX : 0 < w.ViewportSize.X) (hY : 0 < w.ViewportSize.Y)
    (p q : FVector2D) :
    ((0 ≤ EdgeScrollLeft.Movement (w.withPointer p) ∧
        EdgeScrollLeft.Movement (w.withPointer p) ≤ 1) ∧
      (0 ≤ EdgeScrollRight.Movement (w.withPointer p) ∧
        EdgeScrollRight.Movement (w.withPointer p) ≤ 1) ∧
      (0 ≤ EdgeScrollUp.Movement (w.withPointer p) ∧
        EdgeScrollUp.Movement (w.withPointer p) ≤ 1) ∧
      (0 ≤ EdgeScrollDown.Movement (w.withPointer p) ∧
        EdgeScrollDown.Movement (w.withPointer p) ≤ 1)) ∧
    ((p.X ≤ q.X →
        EdgeScrollLeft.Movement (w.withPointer q) ≤ EdgeScrollLeft.Movement (w.withPointer p)) ∧
      (p.X ≤ q.X →
        EdgeScrollRight.Movement (w.withPointer p) ≤ EdgeScrollRight.Movement (w.withPointer q)) ∧
      (p.Y ≤ q.Y →
        EdgeScrollUp.Movement (w.withPointer q) ≤ EdgeScrollUp.Movement (w.withPointer p)) ∧
      (p.Y ≤ q.Y →
        EdgeScrollDown.Movement (w.withPointer p) ≤ EdgeScrollDown.Movement (w.withPointer q))) ∧
    ((p.X ≤ 0 → EdgeScrollLeft.Movement (w.withPointer p) = 1) ∧
      (w.ViewportSize.X ≤ p.X → EdgeScrollRight.Movement (w.withPointer p) = 1) ∧
      (p.Y ≤ 0 → EdgeScrollUp.Movement (w.withPointer p) = 1) ∧
      (w.ViewportSize.Y ≤ p.Y → EdgeScrollDown.Movement (w.withPointer p) = 1)) ∧
    ((0 ≤ p.X ∧ p.X ≤ w.ViewportSize.X →
        ¬ (0 ≤ p.X ∧ p.X ≤ w.ViewportSize.X * FLOAT_0_05) →
          EdgeScrollLeft.Movement (w.withPointer p) = 0) ∧
      (0 ≤ p.X ∧ p.X ≤ w.ViewportSize.X →
        ¬ (w.ViewportSize.X * FLOAT_0_95 ≤ p.X ∧ p.X ≤ w.ViewportSize.X) →
          EdgeScrollRight.Movement (w.withPointer p) = 0) ∧
      (0 ≤ p.Y ∧ p.Y ≤ w.ViewportSize.Y →
        ¬ (0 ≤ p.Y ∧ p.Y ≤ w.ViewportSize.Y * FLOAT_0_05) →
          EdgeScrollUp.Movement (w.withPointer p) = 0) ∧
      (0 ≤ p.Y ∧ p.Y ≤ w.ViewportSize.Y →
        ¬ (w.ViewportSize.Y * FLOAT_0_95 ≤ p.Y ∧ p.Y ≤ w.ViewportSize.Y) →
          EdgeScrollDown.Movement (w.withPointer p) = 0)) := by
  have bX := band_near_pos _ hX
  have bY := band_near_pos _ hY
  have fX := band_far_lt _ hX
  have fY := band_far_lt _ hY
  simp only [EdgeScrollLeft_closed w hX, EdgeScrollRight_closed w hX, EdgeScrollUp_closed w hY,
    EdgeScrollDown_closed w hY]
  refine ⟨⟨near_range _ _, far_range _, near_range _ _, far_range _⟩,
    ⟨near_antitone _ _ _ bX, far_monotone _ _ _ _ fX, near_antitone _ _ _ bY,
      far_monotone _ _ _ _ fY⟩,
    ⟨near_edge _ _ bX, far_edge _ _ _ fX, near_edge _ _ bY, far_edge _ _ _ fY⟩,
    ⟨fun hv ho => near_inner _ _ bX (le_of_lt (not_le.mp fun hle => ho ⟨hv.1, hle⟩)),
     fun hv ho => far_inner _ _ _ fX (le_of_lt (not_le.mp fun hle => ho ⟨hle, hv.2⟩)),
     fun hv ho => near_inner _ _ bY (le_of_lt (not_le.mp fun hle => ho ⟨hv.1, hle⟩)),
     fun hv ho => far_inner _ _ _ fY (le_of_lt (not_le.mp fun hle => ho ⟨hle, hv.2⟩))⟩⟩

/-- The example viewport (1000 x 600) is positive; on its left edge the left
intensity is 1, at its centre, which is on the viewport and outside the left
band, it is 0. -/
theorem C6_edge_intensity_witness :
    0 < exampleWorld.ViewportSize.X ∧ 0 < exampleWorld.ViewportSize.Y ∧
    EdgeScrollLeft.Movement (exampleWorld.withPointer ⟨0, 300⟩) = 1 ∧
    EdgeScrollLeft.Movement (exampleWorld.withPointer ⟨500, 300⟩) = 0 :=
  ⟨by norm_num [exampleWorld], by norm_num [exampleWorld],
   (C6_edge_intensity exampleWorld (by norm_num [exampleWorld]) (by norm_num [exampleWorld])
      ⟨0, 300⟩ ⟨0, 300⟩).2.2.1.1 le_rfl,
   (C6_edge_intensity exampleWorld (by norm_num [exampleWorld]) (by norm_num [exampleWorld])
      ⟨500, 300⟩ ⟨0, 300⟩).2.2.2.1 (by norm_num [exampleWorld])
      (by norm_num [exampleWorld, FLOAT_0_05])⟩

theorem divide_of_ne (a b : ℚ) (h : b ≠ 0) : divide a b = .num (a / b) := by
  simp [divide, h]

theorem Clamp_zero_extent (d : ℚ) : FMath.Clamp d (-0) 0 = 0 := by
  rw [FMath.Clamp_eq_max_min]
  rcases le_total d 0 with h | h
  · rw [min_eq_left h]; simpa using h
  · rw [min_eq_right h]; simp

theorem OnDragCamera_dragging_active (w : World) (s : RTSCamera) (h : s.IsDragging = true) :
    OnDragCamera w true s
      = { s with
          MoveCameraCommands := s.MoveCameraCommands ++
            [⟨w.SpringArmRightVector.X, w.SpringArmRightVector.Y, OnDragCamera.DeltaX w s⟩,
             ⟨w.SpringArmForwardVector.X, w.SpringArmForwardVector.Y,
                OnDragCamera.DeltaY w s * .num (-1)⟩] } := by
  simp [OnDragCamera, h, RequestMoveCamera]

theorem DeltaX_of_ne (w : World) (s : RTSCamera) (h : s.DragExtent * w.ViewportSize.X ≠ 0) :
    OnDragCamera.DeltaX w s
      = .num (max (-(s.DragExtent * w.ViewportSize.X))
          (min (w.MousePositionOnViewport.X - s.DragStartLocation.X)
            (s.DragExtent * w.ViewportSize.X))
        / (s.DragExtent * w.ViewportSize.X)) := by
  have e1 : (w.MousePositionOnViewport - s.DragStartLocation).X
      = w.MousePositionOnViewport.X - s.DragStartLocation.X := rfl
  simp only [OnDragCamera.DeltaX, OnDragCamera.DragExtents, FVector2D.scale, e1,
    FMath.Clamp_eq_max_min, mul_comm w.ViewportSize.X]
  exact divide_of_ne _ _ h

theorem DeltaY_of_ne (w : World) (s : RTSCamera) (h : s.DragExtent * w.ViewportSize.Y ≠ 0) :
    OnDragCamera.DeltaY w s
      = .num (max (-(s.DragExtent * w.ViewportSize.Y))
          (min (w.MousePositionOnViewport.Y - s.DragStartLocation.Y)
            (s.DragExtent * w.ViewportSize.Y))
        / (s.DragExtent * w.ViewportSize.Y)) := by
  have e1 : (w.MousePositionOnViewport - s.DragStartLocation).Y
      = w.MousePositionOnViewport.Y - s.DragStartLocation.Y := rfl
  simp only [OnDragCamera.DeltaY, OnDragCamera.DragExtents, FVector2D.scale, e1,
    FMath.Clamp_eq_max_min, mul_comm w.ViewportSize.Y]
  exact divide_of_ne _ _ h

theorem DeltaX_of_zero (w : World) (s : RTSCamera) (h : w.ViewportSize.X = 0) :
    OnDragCamera.DeltaX w s = .NaN := by
  simp [OnDragCamera.DeltaX, OnDragCamera.DragExtents, FVector2D.scale, divide, h]

theorem DeltaY_of_zero (w : World) (s : RTSCamera) (h : w.ViewportSize.Y = 0) :
    OnDragCamera.DeltaY w s = .NaN := by
  simp [OnDragCamera.DeltaY, OnDragCamera.DragExtents, FVector2D.scale, divide, h]

/-- C7 (as stated, refuted): while dragging from (400, 700) with the pointer
at (500, 300) and a viewport of width zero and height 600, the division for
the X axis is performed with the divisor zero (and the dividend zero), the
normalized X delta is not-a-number, not zero, and the event enqueues the
right-axis command with the intensity `NaN`, next to the forward-axis command
with its valid intensity 1. -/
theorem C7_zero_viewport_divides_by_zero :
    zeroWidthWorld.ViewportSize.X = 0 ∧
    (OnDragCamera.DragExtents zeroWidthWorld (draggingCamera ⟨400, 700⟩)).X = 0 ∧
    OnDragCamera.DeltaX zeroWidthWorld (draggingCamera ⟨400, 700⟩) = .NaN ∧
    OnDragCamera.DeltaX zeroWidthWorld (draggingCamera ⟨400, 700⟩) ≠ .num 0 ∧
    (OnDragCamera zeroWidthWorld true (draggingCamera ⟨400, 700⟩)).MoveCameraCommands
      = [⟨0, 1, .NaN⟩, ⟨1, 0, .num 1⟩] := by
  have hx : OnDragCamera.DeltaX zeroWidthWorld (draggingCamera ⟨400, 700⟩) = .NaN :=
    DeltaX_of_zero _ _ rfl
  have hy : OnDragCamera.DeltaY zeroWidthWorld (draggingCamera ⟨400, 700⟩) = .num (-1) := by
    rw [DeltaY_of_ne _ _ (by norm_num [zeroWidthWorld, exampleWorld, draggingCamera, URTSCamera])]
    norm_num [zeroWidthWorld, exampleWorld, draggingCamera, URTSCamera]
  refine ⟨rfl, by simp [OnDragCamera.DragExtents, FVector2D.scale, zeroWidthWorld], hx, ?_, ?_⟩
  · rw [hx]; simp
  · rw [OnDragCamera_dragging_active _ _ rfl, hx, hy]
    norm_num [zeroWidthWorld, exampleWorld, draggingCamera, URTSCamera]

/-- C7 (amended): in `OnDragCamera`, for a drag-active event received while
dragging, the divisions by the drag extent are not guarded.  The event always
enqueues its two commands and leaves `IsDragging` set.  If the viewport size
is zero on an axis, the divisor for that axis is zero, the dividend (the delta
clamped between minus and plus the extent) is zero too, and the normalized
delta of that axis, hence the intensity of the command enqueued for it, is
not-a-number (not zero) whatever the pointer position; on an axis where
`DragExtent` times the viewport size is nonzero the intensity is the clamped
delta over the extent (negated for the forward axis). -/
theorem C7_drag_division_unguarded (w : World) (s : RTSCamera) (h : s.IsDragging = true) :
    OnDragCamera w true s
      = { s with
          MoveCameraCommands := s.MoveCameraCommands ++
            [⟨w.SpringArmRightVector.X, w.SpringArmRightVector.Y, OnDragCamera.DeltaX w s⟩,
             ⟨w.SpringArmForwardVector.X, w.SpringArmForwardVector.Y,
                OnDragCamera.DeltaY w s * .num (-1)⟩] } ∧
    (OnDragCamera w true s).IsDragging = true ∧
    (w.ViewportSize.X = 0 →
      (OnDragCamera.DragExtents w s).X = 0 ∧
      FMath.Clamp (w.MousePositionOnViewport - s.DragStartLocation).X
        (-(OnDragCamera.DragExtents w s).X) (OnDragCamera.DragExtents w s).X = 0 ∧
      OnDragCamera.DeltaX w s = .NaN) ∧
    (w.ViewportSize.Y = 0 →
      (OnDragCamera.DragExtents w s).Y = 0 ∧
      FMath.Clamp (w.MousePositionOnViewport - s.DragStartLocation).Y
        (-(OnDragCamera.DragExtents w s).Y) (OnDragCamera.DragExtents w s).Y = 0 ∧
      OnDragCamera.DeltaY w s * .num (-1) = .NaN) ∧
    (s.DragExtent * w.ViewportSize.X ≠ 0 →
      OnDragCamera.DeltaX w s
        = .num (max (-(s.DragExtent * w.ViewportSize.X))
            (min (w.MousePositionOnViewport.X - s.DragStartLocation.X)
              (s.DragExtent * w.ViewportSize.X))
          / (s.DragExtent * w.ViewportSize.X))) ∧
    (s.DragExtent * w.ViewportSize.Y ≠ 0 →
      OnDragCamera.DeltaY w s * .num (-1)
        = .num (-(max (-(s.DragExtent * w.ViewportSize.Y))
            (min (w.MousePositionOnViewport.Y - s.DragStartLocation.Y)
              (s.DragExtent * w.ViewportSize.Y))
          / (s.DragExtent * w.ViewportSize.Y)))) := by
  have e := OnDragCamera_dragging_active w s h
  refine ⟨e, ?_, ?_, ?_, DeltaX_of_ne w s, ?_⟩
  · rw [e]; exact h
  · intro hx
    have h0 : (OnDragCamera.DragExtents w s).X = 0 := by
      simp [OnDragCamera.DragExtents, FVector2D.scale, hx]
    refine ⟨h0, ?_, DeltaX_of_zero w s hx⟩
    rw [h0]
    exact Clamp_zero_extent _
  · intro hy
    have h0 : (OnDragCamera.DragExtents w s).Y = 0 := by
      simp [OnDragCamera.DragExtents, FVector2D.scale, hy]
    refine ⟨h0, ?_, ?_⟩
    · rw [h0]
      exact Clamp_zero_extent _
    · rw [DeltaY_of_zero w s hy]
      rfl
  · intro hy
    rw [DeltaY_of_ne w s hy]
    simp

/-- A drag in progress: with a viewport of width zero the right-axis command
is enqueued with an intensity that is not a number, and `IsDragging` stays
set. -/
theorem C7_drag_division_unguarded_witness :
    (draggingCamera ⟨400, 700⟩).IsDragging = true ∧
    zeroWidthWorld.ViewportSize.X = 0 ∧
    OnDragCamera.DeltaX zeroWidthWorld (draggingCamera ⟨400, 700⟩) = .NaN ∧
    (OnDragCamera zeroWidthWorld true (draggingCamera ⟨400, 700⟩)).IsDragging = true :=
  ⟨rfl, rfl,
   ((C7_drag_division_unguarded zeroWidthWorld (draggingCamera ⟨400, 700⟩) rfl).2.2.1 rfl).2.2,
   (C7_drag_division_unguarded zeroWidthWorld (draggingCamera ⟨400, 700⟩) rfl).2.1⟩

theorem clamp_div_bounds (d E : ℚ) (hE : 0 < E) :
    -1 ≤ max (-E) (min d E) / E ∧ max (-E) (min d E) / E ≤ 1 := by
  constructor
  · rw [le_div_iff₀ hE]
    have := le_max_left (-E) (min d E)
    linarith
  · rw [div_le_iff₀ hE]
    have : max (-E) (min d E) ≤ E := max_le (by linarith) (min_le_right _ _)
    linarith

theorem clamp_div_sign (d E : ℚ) (hE : 0 < E) :
    SignType.sign (max (-E) (min d E) / E) = SignType.sign d := by
  rcases lt_trichotomy d 0 with hd | hd | hd
  · have h1 : max (-E) (min d E) < 0 :=
      max_lt (by linarith) (lt_of_le_of_lt (min_le_left _ _) hd)
    rw [sign_neg hd, sign_neg (div_neg_of_neg_of_pos h1 hE)]
  · subst hd
    rw [min_eq_left hE.le, max_eq_right (by linarith)]
    simp
  · have h1 : 0 < max (-E) (min d E) :=
      lt_of_lt_of_le (lt_min hd hE) (le_max_right _ _)
    rw [sign_pos hd, sign_pos (div_pos h1 hE)]

theorem OnDragCamera_IsDragging (w : World) (v : Bool) (s : RTSCamera) :
    (OnDragCamera w v s).IsDragging = v := by
  unfold OnDragCamera
  cases hd : s.IsDragging <;> cases v <;> simp [hd, RequestMoveCamera]

theorem dragEvents_append (s : RTSCamera) (es : List (World × Bool)) (e : World × Bool) :
    dragEvents s (es ++ [e]) = OnDragCamera e.1 e.2 (dragEvents s es) := by
  simp [dragEvents, List.foldl_append]

/-- C8: for a positive viewport size (W, H), `DragExtent` e > 0 and a drag in
progress, an `OnDragCamera(true)` event with the pointer at the recorded start
plus (dx, dy) appends exactly two commands, in this order:
(right.X, right.Y, clamp(dx, -e*W, e*W) / (e*W)) and
(forward.X, forward.Y, -clamp(dy, -e*H, e*H) / (e*H)), and changes nothing
else (so the rig position is unchanged); both intensities are numbers and lie
in [-1, 1], the first has the sign of dx and the second the opposite sign of
dy. -/
theorem C8_drag_commands (w : World) (s : RTSCamera) (dx dy : ℚ)
    (hW : 0 < w.ViewportSize.X) (hH : 0 < w.ViewportSize.Y) (he : 0 < s.DragExtent)
    (hd : s.IsDragging = true)
    (hp : w.MousePositionOnViewport
      = ⟨s.DragStartLocation.X + dx, s.DragStartLocation.Y + dy⟩) :
    OnDragCamera w true s
      = { s with
          MoveCameraCommands := s.MoveCameraCommands ++
            [⟨w.SpringArmRightVector.X, w.SpringArmRightVector.Y,
                .num (max (-(s.DragExtent * w.ViewportSize.X))
                    (min dx (s.DragExtent * w.ViewportSize.X))
                  / (s.DragExtent * w.ViewportSize.X))⟩,
             ⟨w.SpringArmForwardVector.X, w.SpringArmForwardVector.Y,
                .num (-(max (-(s.DragExtent * w.ViewportSize.Y))
                    (min dy (s.DragExtent * w.ViewportSize.Y))
                  / (s.DragExtent * w.ViewportSize.Y)))⟩] } ∧
    (OnDragCamera w true s).RootLocation = s.RootLocation ∧
    (-1 ≤ max (-(s.DragExtent * w.ViewportSize.X)) (min dx (s.DragExtent * w.ViewportSize.X))
            / (s.DragExtent * w.ViewportSize.X) ∧
      max (-(s.DragExtent * w.ViewportSize.X)) (min dx (s.DragExtent * w.ViewportSize.X))
            / (s.DragExtent * w.ViewportSize.X) ≤ 1) ∧
    (-1 ≤ -(max (-(s.DragExtent * w.ViewportSize.Y)) (min dy (s.DragExtent * w.ViewportSize.Y))
            / (s.DragExtent * w.ViewportSize.Y)) ∧
      -(max (-(s.DragExtent * w.ViewportSize.Y)) (min dy (s.DragExtent * w.ViewportSize.Y))
            / (s.DragExtent * w.ViewportSize.Y)) ≤ 1) ∧
    SignType.sign (max (-(s.DragExtent * w.ViewportSize.X))
        (min dx (s.DragExtent * w.ViewportSize.X)) / (s.DragExtent * w.ViewportSize.X))
      = SignType.sign dx ∧
    SignType.sign (-(max (-(s.DragExtent * w.ViewportSize.Y))
        (min dy (s.DragExtent * w.ViewportSize.Y)) / (s.DragExtent * w.ViewportSize.Y)))
      = -SignType.sign dy := by
  have hX : 0 < s.DragExtent * w.ViewportSize.X := mul_pos he hW
  have hY : 0 < s.DragExtent * w.ViewportSize.Y := mul_pos he hH
  have e1 : w.MousePositionOnViewport.X - s.DragStartLocation.X = dx := by
    rw [hp]; show s.DragStartLocation.X + dx - s.DragStartLocation.X = dx; ring
  have e2 : w.MousePositionOnViewport.Y - s.DragStartLocation.Y = dy := by
    rw [hp]; show s.DragStartLocation.Y + dy - s.DragStartLocation.Y = dy; ring
  have ex := DeltaX_of_ne w s hX.ne'
  have ey := DeltaY_of_ne w s hY.ne'
  rw [e1] at ex
  rw [e2] at ey
  have hres := OnDragCamera_dragging_active w s hd
  rw [ex, ey] at hres
  have bx := clamp_div_bounds dx _ hX
  have by' := clamp_div_bounds dy _ hY
  refine ⟨?_, ?_, bx, ⟨by linarith [by'.2], by linarith [by'.1]⟩, clamp_div_sign dx _ hX, ?_⟩
  · rw [hres]
    simp
  · rw [hres]
  · rw [Left.sign_neg, clamp_div_sign dy _ hY]

/-- A drag from (400, 300) with the pointer now at (500, 300 - 720), in a
viewport of 1000 x 600: dx = 100 is within the drag extent, dy = -720 is
beyond it, so the second intensity is saturated at 1. -/
theorem C8_drag_commands_witness :
    0 < (pointerWorld ⟨500, -420⟩).ViewportSize.X ∧
    0 < (pointerWorld ⟨500, -420⟩).ViewportSize.Y ∧
    0 < (draggingCamera ⟨400, 300⟩).DragExtent ∧
    (OnDragCamera (pointerWorld ⟨500, -420⟩) true (draggingCamera ⟨400, 300⟩)).RootLocation
      = (draggingCamera ⟨400, 300⟩).RootLocation :=
  ⟨by norm_num [pointerWorld, World.withPointer, exampleWorld],
   by norm_num [pointerWorld, World.withPointer, exampleWorld],
   by norm_num [draggingCamera, URTSCamera],
   (C8_drag_commands (pointerWorld ⟨500, -420⟩) (draggingCamera ⟨400, 300⟩) 100 (-720)
      (by norm_num [pointerWorld, World.withPointer, exampleWorld])
      (by norm_num [pointerWorld, World.withPointer, exampleWorld])
      (by norm_num [draggingCamera, URTSCamera]) rfl
      (by norm_num [pointerWorld, World.withPointer, exampleWorld, draggingCamera])).2.1⟩

/-- C9: `OnDragCamera` is the two-state machine Idle/Dragging.
(Idle, active) sets `IsDragging`, records the pointer as `DragStartLocation`
and changes nothing else, so enqueues nothing; (Dragging, active) leaves
`IsDragging` and `DragStartLocation` unchanged (it appends its two commands
and changes nothing else), whatever the viewport size is; (Dragging, inactive)
clears `IsDragging` and changes nothing else; (Idle, inactive) changes
nothing.  Hence after every event of every event sequence `IsDragging` is that
event's active flag, and a release leaves the queue as it was. -/
theorem C9_drag_state_machine (w : World) (s : RTSCamera) :
    (s.IsDragging = false →
      OnDragCamera w true s
        = { s with IsDragging := true, DragStartLocation := w.MousePositionOnViewport }) ∧
    (s.IsDragging = true →
      (OnDragCamera w true s).IsDragging = s.IsDragging ∧
      (OnDragCamera w true s).DragStartLocation = s.DragStartLocation ∧
      OnDragCamera w true s
        = { s with
            MoveCameraCommands := s.MoveCameraCommands ++
              [⟨w.SpringArmRightVector.X, w.SpringArmRightVector.Y, OnDragCamera.DeltaX w s⟩,
               ⟨w.SpringArmForwardVector.X, w.SpringArmForwardVector.Y,
                  OnDragCamera.DeltaY w s * .num (-1)⟩] }) ∧
    (s.IsDragging = true → OnDragCamera w false s = { s with IsDragging := false }) ∧
    (s.IsDragging = false → OnDragCamera w false s = s) ∧
    (∀ (es : List (World × Bool)) (e : World × Bool),
      (dragEvents s (es ++ [e])).IsDragging = e.2) ∧
    (OnDragCamera w false s).MoveCameraCommands = s.MoveCameraCommands := by
  refine ⟨fun h => by simp [OnDragCamera, h], fun h => ?_,
    fun h => by simp [OnDragCamera, h], fun h => by simp [OnDragCamera, h], ?_, ?_⟩
  · have e := OnDragCamera_dragging_active w s h
    refine ⟨?_, ?_, e⟩ <;> rw [e]
  · intro es e
    rw [dragEvents_append]
    exact OnDragCamera_IsDragging _ _ _
  · cases hd : s.IsDragging <;> simp [OnDragCamera, hd]

/-- A press in the idle state starts a drag at the pointer; a hold with a
viewport of width zero keeps the drag and its start. -/
theorem C9_drag_state_machine_witness :
    URTSCamera.IsDragging = false ∧
    OnDragCamera exampleWorld true URTSCamera
      = { URTSCamera with
          IsDragging := true, DragStartLocation := exampleWorld.MousePositionOnViewport } ∧
    (draggingCamera ⟨400, 300⟩).IsDragging = true ∧
    (OnDragCamera zeroWidthWorld true (draggingCamera ⟨400, 300⟩)).IsDragging
      = (draggingCamera ⟨400, 300⟩).IsDragging ∧
    (OnDragCamera zeroWidthWorld true (draggingCamera ⟨400, 300⟩)).DragStartLocation
      = (draggingCamera ⟨400, 300⟩).DragStartLocation :=
  ⟨rfl, (C9_drag_state_machine exampleWorld URTSCamera).1 rfl, rfl,
   ((C9_drag_state_machine zeroWidthWorld (draggingCamera ⟨400, 300⟩)).2.1 rfl).1,
   ((C9_drag_state_machine zeroWidthWorld (draggingCamera ⟨400, 300⟩)).2.1 rfl).2.1⟩

theorem beforeGround_flags (w : World) (DeltaTime : ℚ) (s : RTSCamera) :
    (TickComponent.beforeGround w DeltaTime s).IsCameraOutOfBoundsErrorAlreadyDisplayed
      = s.IsCameraOutOfBoundsErrorAlreadyDisplayed ∧
    (TickComponent.beforeGround w DeltaTime s).EnableDynamicCameraHeight
      = s.EnableDynamicCameraHeight := by
  unfold TickComponent.beforeGround ConditionallyPerformEdgeScrolling
  split_ifs <;>
    simp [ApplyMoveCameraCommands, foldl_body, EdgeScrollLeft, EdgeScrollRight, EdgeScrollUp,
      EdgeScrollDown, AddRelativeLocation]

theorem Keep_flags (w : World) (s : RTSCamera) :
    (ConditionallyKeepCameraAtDesiredZoomAboveGround w s).1.EnableDynamicCameraHeight
      = s.EnableDynamicCameraHeight := by
  unfold ConditionallyKeepCameraAtDesiredZoomAboveGround
  cases hE : s.EnableDynamicCameraHeight <;> cases GroundTrace w s <;>
    cases hL : s.IsCameraOutOfBoundsErrorAlreadyDisplayed <;> simp [hE, hL]

theorem Keep_enabled (w : World) (s : RTSCamera) (h : s.EnableDynamicCameraHeight = true) :
    ConditionallyKeepCameraAtDesiredZoomAboveGround w s
      = match GroundTrace w s with
        | some HitLocation =>
          ({ s with
              RootLocation := ⟨.num HitLocation.X, .num HitLocation.Y, .num HitLocation.Z⟩ }, [])
        | none =>
          if !s.IsCameraOutOfBoundsErrorAlreadyDisplayed then
            ({ s with IsCameraOutOfBoundsErrorAlreadyDisplayed := true }, OutOfBoundsMessages)
          else (s, []) := by
  simp [ConditionallyKeepCameraAtDesiredZoomAboveGround, h]

theorem afterGround_flags (w : World) (s : RTSCamera) :
    (ConditionallyApplyCameraBounds w
      (FollowTargetIfSet w
        (SmoothTargetArmLengthToDesiredZoom s))).IsCameraOutOfBoundsErrorAlreadyDisplayed
      = s.IsCameraOutOfBoundsErrorAlreadyDisplayed ∧
    (ConditionallyApplyCameraBounds w
      (FollowTargetIfSet w (SmoothTargetArmLengthToDesiredZoom s))).EnableDynamicCameraHeight
      = s.EnableDynamicCameraHeight := by
  unfold ConditionallyApplyCameraBounds FollowTargetIfSet SmoothTargetArmLengthToDesiredZoom
  cases s.BoundaryVolume <;> cases s.CameraFollowTarget <;> simp

theorem Keep_latch_mono (w : World) (s : RTSCamera)
    (h : s.IsCameraOutOfBoundsErrorAlreadyDisplayed = true) :
    (ConditionallyKeepCameraAtDesiredZoomAboveGround w
      s).1.IsCameraOutOfBoundsErrorAlreadyDisplayed = true := by
  unfold ConditionallyKeepCameraAtDesiredZoomAboveGround
  cases s.EnableDynamicCameraHeight <;> cases GroundTrace w s <;> simp [h]

theorem Tick_latch_mono (w : World) (DeltaTime : ℚ) (s : RTSCamera)
    (h : s.IsCameraOutOfBoundsErrorAlreadyDisplayed = true) :
    (TickComponent w DeltaTime s).1.IsCameraOutOfBoundsErrorAlreadyDisplayed = true := by
  unfold TickComponent
  simp only []
  rw [(afterGround_flags w _).1]
  exact Keep_latch_mono w _ (by rw [(beforeGround_flags w DeltaTime s).1]; exact h)

theorem Tick_enabled (w : World) (DeltaTime : ℚ) (s : RTSCamera) :
    (TickComponent w DeltaTime s).1.EnableDynamicCameraHeight = s.EnableDynamicCameraHeight := by
  unfold TickComponent
  simp only []
  rw [(afterGround_flags w _).2, Keep_flags, (beforeGround_flags w DeltaTime s).2]

theorem Tick_messages (w : World) (DeltaTime : ℚ) (s : RTSCamera)
    (hE : s.EnableDynamicCameraHeight = true) :
    (TickComponent w DeltaTime s).2
      = (if TickComponent.probeMisses w DeltaTime s
            && !s.IsCameraOutOfBoundsErrorAlreadyDisplayed
          then OutOfBoundsMessages else []) ∧
    (TickComponent w DeltaTime s).1.IsCameraOutOfBoundsErrorAlreadyDisplayed
      = (s.IsCameraOutOfBoundsErrorAlreadyDisplayed
          || TickComponent.probeMisses w DeltaTime s) := by
  have hb := beforeGround_flags w DeltaTime s
  unfold TickComponent TickComponent.probeMisses
  simp only []
  rw [(afterGround_flags w _).1, Keep_enabled w _ (by rw [hb.2]; exact hE)]
  cases GroundTrace w (TickComponent.beforeGround w DeltaTime s) with
  | some hit => simp [hb.1]
  | none =>
    cases hL : s.IsCameraOutOfBoundsErrorAlreadyDisplayed <;> simp [hb.1, hL]

theorem OutOfBoundsMessages_ne_nil : OutOfBoundsMessages.isEmpty = false := rfl

theorem tickTrace_latched (ts : List (World × ℚ)) (s : RTSCamera)
    (hE : s.EnableDynamicCameraHeight = true)
    (hL : s.IsCameraOutOfBoundsErrorAlreadyDisplayed = true) :
    (tickTrace s ts).map (fun r => !r.2.isEmpty)
      = ((tickTrace s ts).map (fun r => r.1)).map (fun _ => false) := by
  induction ts generalizing s with
  | nil => rfl
  | cons t ts ih =>
    have hm := (Tick_messages t.1 t.2 s hE).1
    have h1 := ih (TickComponent t.1 t.2 s).1 (by rw [Tick_enabled]; exact hE)
      (Tick_latch_mono t.1 t.2 s hL)
    simp only [tickTrace, List.map_cons, h1, hm, hL]
    simp

theorem tickTrace_firstOnly (ts : List (World × ℚ)) (s : RTSCamera)
    (hE : s.EnableDynamicCameraHeight = true)
    (hL : s.IsCameraOutOfBoundsErrorAlreadyDisplayed = false) :
    (tickTrace s ts).map (fun r => !r.2.isEmpty)
      = firstOnly ((tickTrace s ts).map (fun r => r.1)) := by
  induction ts generalizing s with
  | nil => rfl
  | cons t ts ih =>
    have hm := Tick_messages t.1 t.2 s hE
    have hE1 : (TickComponent t.1 t.2 s).1.EnableDynamicCameraHeight = true := by
      rw [Tick_enabled]; exact hE
    simp only [tickTrace, List.map_cons]
    cases hp : TickComponent.probeMisses t.1 t.2 s with
    | true =>
      have hL1 : (TickComponent t.1 t.2 s).1.IsCameraOutOfBoundsErrorAlreadyDisplayed = true := by
        rw [hm.2, hp]; simp
      rw [hm.1, hp, hL, firstOnly, tickTrace_latched ts _ hE1 hL1]
      simp [OutOfBoundsMessages_ne_nil]
    | false =>
      have hL1 : (TickComponent t.1 t.2 s).1.IsCameraOutOfBoundsErrorAlreadyDisplayed
          = false := by
        rw [hm.2, hp, hL]; rfl
      rw [hm.1, hp, firstOnly, ih _ hE1 hL1]
      simp

theorem run_latch_mono (w : World) (op : Operation) (s : RTSCamera)
    (hL : s.IsCameraOutOfBoundsErrorAlreadyDisplayed = true) :
    (runOperation w op s).IsCameraOutOfBoundsErrorAlreadyDisplayed = true := by
  cases op <;> simp only [runOperation]
  case TickComponent dt => exact Tick_latch_mono w dt s hL
  case BeginPlay =>
    unfold BeginPlay TryToFindBoundaryVolumeReference
    cases w.BlockingVolumes <;> simpa [ConfigureSpringArm] using hL
  case OnDragCamera v =>
    unfold OnDragCamera
    cases hd : s.IsDragging <;> cases v <;> simpa [hd, RequestMoveCamera] using hL
  all_goals
    simpa [FollowTarget, UnFollowTarget, OnZoomCamera, OnRotateCamera, OnTurnCameraLeft,
      OnTurnCameraRight, OnMoveCameraYAxis, OnMoveCameraXAxis, RequestMoveCamera] using hL

theorem tickTrace_messages (ts : List (World × ℚ)) (s : RTSCamera)
    (hE : s.EnableDynamicCameraHeight = true) :
    ∀ r ∈ tickTrace s ts, r.2 = [] ∨ r.2 = OutOfBoundsMessages := by
  induction ts generalizing s with
  | nil => intro r hr; simp [tickTrace] at hr
  | cons t ts ih =>
    intro r hr
    simp only [tickTrace, List.mem_cons] at hr
    rcases hr with hr | hr
    · rw [hr]
      simp only []
      rw [(Tick_messages t.1 t.2 s hE).1]
      split_ifs
      · exact Or.inr rfl
      · exact Or.inl rfl
    · exact ih _ (by rw [Tick_enabled]; exact hE) r hr

/-- C10: with dynamic height enabled, (1) a ground-trace miss leaves the root
location unchanged; (2) starting with the latch
`IsCameraOutOfBoundsErrorAlreadyDisplayed` clear, in every sequence of ticks
the ticks that print are exactly the first tick whose trace misses, and no
later one; (3) a tick prints nothing or exactly the three out-of-bounds
messages; (4) no operation of the component, in any world, clears the latch
once it is set. -/
theorem C10_probe_miss_latch (w : World) (s : RTSCamera)
    (hE : s.EnableDynamicCameraHeight = true) :
    (GroundTrace w s = none →
      (ConditionallyKeepCameraAtDesiredZoomAboveGround w s).1.RootLocation = s.RootLocation) ∧
    (s.IsCameraOutOfBoundsErrorAlreadyDisplayed = false →
      ∀ ts : List (World × ℚ),
        (tickTrace s ts).map (fun r => !r.2.isEmpty)
          = firstOnly ((tickTrace s ts).map (fun r => r.1))) ∧
    (∀ ts : List (World × ℚ), ∀ r ∈ tickTrace s ts, r.2 = [] ∨ r.2 = OutOfBoundsMessages) ∧
    (∀ (v : World) (op : Operation) (t : RTSCamera),
      t.IsCameraOutOfBoundsErrorAlreadyDisplayed = true →
        (runOperation v op t).IsCameraOutOfBoundsErrorAlreadyDisplayed = true) := by
  refine ⟨fun hmiss => ?_, fun hL ts => tickTrace_firstOnly ts s hE hL,
    fun ts => tickTrace_messages ts s hE, fun v op t hL => run_latch_mono v op t hL⟩
  rw [Keep_enabled w s hE, hmiss]
  cases s.IsCameraOutOfBoundsErrorAlreadyDisplayed <;> rfl

/-- The component as constructed has dynamic height enabled and the latch
clear; three ticks in the example world, whose trace always misses. -/
theorem C10_probe_miss_latch_witness :
    URTSCamera.EnableDynamicCameraHeight = true ∧
    URTSCamera.IsCameraOutOfBoundsErrorAlreadyDisplayed = false ∧
    (tickTrace URTSCamera
        [(exampleWorld, 1 / 60), (exampleWorld, 1 / 60), (exampleWorld, 1 / 60)]).map
        (fun r => !r.2.isEmpty)
      = firstOnly ((tickTrace URTSCamera
          [(exampleWorld, 1 / 60), (exampleWorld, 1 / 60), (exampleWorld, 1 / 60)]).map
          (fun r => r.1)) :=
  ⟨rfl, rfl, (C10_probe_miss_latch exampleWorld URTSCamera rfl).2.1 rfl _⟩

/-! ## The frame of a tick -/

theorem Apply_exceptLocation (w : World) (s : RTSCamera) :
    exceptLocation (ApplyMoveCameraCommands w s) = exceptLocation s := by
  unfold ApplyMoveCameraCommands
  rw [foldl_body]
  rfl

theorem AddRelativeLocation_exceptLocation (d : FVector) (s : RTSCamera) :
    exceptLocation (AddRelativeLocation d s) = exceptLocation s := rfl

theorem EdgeScrolling_exceptLocation (w : World) (s : RTSCamera) :
    exceptLocation (ConditionallyPerformEdgeScrolling w s) = exceptLocation s := by
  unfold ConditionallyPerformEdgeScrolling
  split_ifs
  · unfold EdgeScrollDown
    rw [AddRelativeLocation_exceptLocation]
    unfold EdgeScrollUp
    rw [AddRelativeLocation_exceptLocation]
    unfold EdgeScrollRight
    rw [AddRelativeLocation_exceptLocation]
    unfold EdgeScrollLeft
    rw [AddRelativeLocation_exceptLocation]
  · rfl

theorem Keep_exceptLocation (w : World) (s : RTSCamera) :
    exceptLocation (ConditionallyKeepCameraAtDesiredZoomAboveGround w s).1 = exceptLocation s := by
  unfold ConditionallyKeepCameraAtDesiredZoomAboveGround
  split
  · split
    · rfl
    · split <;> rfl
  · rfl

theorem Follow_exceptLocation (w : World) (s : RTSCamera) :
    exceptLocation (FollowTargetIfSet w s) = exceptLocation s := by
  unfold FollowTargetIfSet
  split <;> rfl

theorem Bounds_exceptLocation (w : World) (s : RTSCamera) :
    exceptLocation (ConditionallyApplyCameraBounds w s) = exceptLocation s := by
  unfold ConditionallyApplyCameraBounds
  split <;> rfl

theorem beforeGround_exceptLocation (w : World) (DeltaTime : ℚ) (s : RTSCamera) :
    exceptLocation (TickComponent.beforeGround w DeltaTime s)
      = exceptLocation { s with DeltaSeconds := DeltaTime } := by
  unfold TickComponent.beforeGround
  rw [EdgeScrolling_exceptLocation, Apply_exceptLocation]

theorem atSmooth_exceptLocation (w : World) (DeltaTime : ℚ) (s : RTSCamera) :
    exceptLocation
        (ConditionallyKeepCameraAtDesiredZoomAboveGround w
          (TickComponent.beforeGround w DeltaTime s)).1
      = exceptLocation { s with DeltaSeconds := DeltaTime } := by
  rw [Keep_exceptLocation, beforeGround_exceptLocation]

theorem Tick_exceptTickOutputs (w : World) (DeltaTime : ℚ) (s : RTSCamera) :
    exceptTickOutputs (TickComponent w DeltaTime s).1 = exceptTickOutputs s := by
  have h := atSmooth_exceptLocation w DeltaTime s
  unfold TickComponent
  simp only []
  unfold exceptTickOutputs
  rw [Bounds_exceptLocation, Follow_exceptLocation]
  show ({ exceptLocation (ConditionallyKeepCameraAtDesiredZoomAboveGround w
      (TickComponent.beforeGround w DeltaTime s)).1 with
        TargetArmLength := 0, DeltaSeconds := 0 } : RTSCamera) = _
  rw [h]
  rfl

theorem Tick_TargetArmLength (w : World) (DeltaTime : ℚ) (s : RTSCamera) :
    (TickComponent w DeltaTime s).1.TargetArmLength
      = FMath.FInterpTo s.TargetArmLength s.DesiredZoomLength DeltaTime s.ZoomCatchupSpeed := by
  have h := atSmooth_exceptLocation w DeltaTime s
  have e1 := congrArg RTSCamera.TargetArmLength h
  have e2 := congrArg RTSCamera.DesiredZoomLength h
  have e3 := congrArg RTSCamera.DeltaSeconds h
  have e4 := congrArg RTSCamera.ZoomCatchupSpeed h
  have e5 := congrArg RTSCamera.TargetArmLength
    (Bounds_exceptLocation w (FollowTargetIfSet w (SmoothTargetArmLengthToDesiredZoom
      (ConditionallyKeepCameraAtDesiredZoomAboveGround w
        (TickComponent.beforeGround w DeltaTime s)).1)))
  have e6 := congrArg RTSCamera.TargetArmLength
    (Follow_exceptLocation w (SmoothTargetArmLengthToDesiredZoom
      (ConditionallyKeepCameraAtDesiredZoomAboveGround w
        (TickComponent.beforeGround w DeltaTime s)).1))
  simp only [exceptLocation] at e1 e2 e3 e4 e5 e6
  unfold TickComponent
  simp only []
  rw [e5, e6]
  show FMath.FInterpTo _ _ _ _ = _
  rw [e1, e2, e3, e4]

theorem FInterpTo_between (c t d k : ℚ) :
    min c t ≤ FMath.FInterpTo c t d k ∧ FMath.FInterpTo c t d k ≤ max c t := by
  simp only [FMath.FInterpTo]
  split_ifs
  · exact ⟨min_le_right _ _, le_max_right _ _⟩
  · exact ⟨min_le_right _ _, le_max_right _ _⟩
  · obtain ⟨a0, a1⟩ := FMath.Clamp_mem (d * k) 0 1 zero_le_one
    rcases le_total c t with hct | hct
    · rw [min_eq_left hct, max_eq_right hct]
      constructor <;> nlinarith
    · rw [min_eq_right hct, max_eq_left hct]
      constructor <;> nlinarith

theorem FInterpTo_self (c d k : ℚ) : FMath.FInterpTo c c d k = c := by
  simp only [FMath.FInterpTo]
  split_ifs <;> simp

theorem Tick_zoom_fields (w : World) (DeltaTime : ℚ) (s : RTSCamera) :
    (TickComponent w DeltaTime s).1.DesiredZoomLength = s.DesiredZoomLength ∧
    (TickComponent w DeltaTime s).1.MinimumZoomLength = s.MinimumZoomLength ∧
    (TickComponent w DeltaTime s).1.MaximumZoomLength = s.MaximumZoomLength := by
  have h := Tick_exceptTickOutputs w DeltaTime s
  exact ⟨(congrArg RTSCamera.DesiredZoomLength h :), (congrArg RTSCamera.MinimumZoomLength h :),
    (congrArg RTSCamera.MaximumZoomLength h :)⟩

theorem zoomAndTicks_append (s : RTSCamera) (es : List ZoomEvent) (e : ZoomEvent) :
    zoomAndTicks s (es ++ [e]) = zoomStep (zoomAndTicks s es) e := by
  simp [zoomAndTicks, List.foldl_append]

theorem zoomStep_invariant (lo hi : ℚ) (h : lo ≤ hi) (t : RTSCamera) (e : ZoomEvent)
    (hmin : t.MinimumZoomLength = lo) (hmax : t.MaximumZoomLength = hi)
    (hd : lo ≤ t.DesiredZoomLength ∧ t.DesiredZoomLength ≤ hi)
    (ha : lo ≤ t.TargetArmLength ∧ t.TargetArmLength ≤ hi) :
    (zoomStep t e).MinimumZoomLength = lo ∧ (zoomStep t e).MaximumZoomLength = hi ∧
    (lo ≤ (zoomStep t e).DesiredZoomLength ∧ (zoomStep t e).DesiredZoomLength ≤ hi) ∧
    (lo ≤ (zoomStep t e).TargetArmLength ∧ (zoomStep t e).TargetArmLength ≤ hi) := by
  cases e with
  | zoom v =>
    refine ⟨hmin, hmax, ?_, ha⟩
    show lo ≤ FMath.Clamp _ _ _ ∧ FMath.Clamp _ _ _ ≤ hi
    rw [hmin, hmax]
    exact FMath.Clamp_mem _ _ _ h
  | tick w d =>
    obtain ⟨e1, e2, e3⟩ := Tick_zoom_fields w d t
    have b := FInterpTo_between t.TargetArmLength t.DesiredZoomLength d t.ZoomCatchupSpeed
    simp only [zoomStep]
    rw [e1, e2, e3, Tick_TargetArmLength]
    refine ⟨hmin, hmax, hd, ?_, ?_⟩
    · exact le_trans (le_min ha.1 hd.1) b.1
    · exact le_trans b.2 (max_le ha.2 hd.2)

theorem zoomAndTicks_invariant (s : RTSCamera)
    (h : s.MinimumZoomLength ≤ s.MaximumZoomLength) (es : List ZoomEvent) :
    (zoomAndTicks (ConfigureSpringArm s) es).MinimumZoomLength = s.MinimumZoomLength ∧
    (zoomAndTicks (ConfigureSpringArm s) es).MaximumZoomLength = s.MaximumZoomLength ∧
    (s.MinimumZoomLength ≤ (zoomAndTicks (ConfigureSpringArm s) es).DesiredZoomLength ∧
      (zoomAndTicks (ConfigureSpringArm s) es).DesiredZoomLength ≤ s.MaximumZoomLength) ∧
    (s.MinimumZoomLength ≤ (zoomAndTicks (ConfigureSpringArm s) es).TargetArmLength ∧
      (zoomAndTicks (ConfigureSpringArm s) es).TargetArmLength ≤ s.MaximumZoomLength) := by
  induction es using List.reverseRecOn with
  | nil => exact ⟨rfl, rfl, ⟨h, le_rfl⟩, ⟨h, le_rfl⟩⟩
  | append_singleton es e ih =>
    rw [zoomAndTicks_append]
    exact zoomStep_invariant _ _ h _ e ih.1 ih.2.1 ih.2.2.1 ih.2.2.2

/-- C11: from the state `ConfigureSpringArm` establishes (spring-arm length =
`DesiredZoomLength` = `MaximumZoomLength`), with
`MinimumZoomLength ≤ MaximumZoomLength`, after any interleaving of
`OnZoomCamera` calls and ticks the spring-arm length (and the desired length)
lies in `[MinimumZoomLength, MaximumZoomLength]`; and each
`SmoothTargetArmLengthToDesiredZoom` step, alone or inside a tick, leaves the
length between its previous value and `DesiredZoomLength`.  This holds for
every `ZoomCatchupSpeed` and every `DeltaSeconds`, the nonnegative ones
included. -/
theorem C11_zoom_distance_in_range (s : RTSCamera)
    (h : s.MinimumZoomLength ≤ s.MaximumZoomLength) (es : List ZoomEvent) :
    (s.MinimumZoomLength ≤ (zoomAndTicks (ConfigureSpringArm s) es).TargetArmLength ∧
      (zoomAndTicks (ConfigureSpringArm s) es).TargetArmLength ≤ s.MaximumZoomLength) ∧
    (s.MinimumZoomLength ≤ (zoomAndTicks (ConfigureSpringArm s) es).DesiredZoomLength ∧
      (zoomAndTicks (ConfigureSpringArm s) es).DesiredZoomLength ≤ s.MaximumZoomLength) ∧
    (∀ u : RTSCamera,
      min u.TargetArmLength u.DesiredZoomLength
          ≤ (SmoothTargetArmLengthToDesiredZoom u).TargetArmLength ∧
        (SmoothTargetArmLengthToDesiredZoom u).TargetArmLength
          ≤ max u.TargetArmLength u.DesiredZoomLength) ∧
    (∀ (u : RTSCamera) (w : World) (DeltaTime : ℚ),
      min u.TargetArmLength u.DesiredZoomLength ≤ (TickComponent w DeltaTime u).1.TargetArmLength ∧
        (TickComponent w DeltaTime u).1.TargetArmLength
          ≤ max u.TargetArmLength u.DesiredZoomLength) := by
  obtain ⟨_, _, hd, ha⟩ := zoomAndTicks_invariant s h es
  refine ⟨ha, hd, fun u => FInterpTo_between _ _ _ _, fun u w d => ?_⟩
  rw [Tick_TargetArmLength]
  exact FInterpTo_between _ _ _ _

/-- The constructor's limits are ordered; a zoom, a tick and a zoom after
`ConfigureSpringArm` leave the spring-arm length within them. -/
theorem C11_zoom_distance_in_range_witness :
    URTSCamera.MinimumZoomLength ≤ URTSCamera.MaximumZoomLength ∧
    URTSCamera.MinimumZoomLength
      ≤ (zoomAndTicks (ConfigureSpringArm URTSCamera)
          [.zoom 3, .tick exampleWorld (1 / 60), .zoom (-1)]).TargetArmLength ∧
    (zoomAndTicks (ConfigureSpringArm URTSCamera)
          [.zoom 3, .tick exampleWorld (1 / 60), .zoom (-1)]).TargetArmLength
      ≤ URTSCamera.MaximumZoomLength :=
  ⟨by norm_num [URTSCamera],
   (C11_zoom_distance_in_range URTSCamera (by norm_num [URTSCamera])
      [.zoom 3, .tick exampleWorld (1 / 60), .zoom (-1)]).1⟩

theorem tickAll_append (s : RTSCamera) (ts : List (World × ℚ)) (t : World × ℚ) :
    tickAll s (ts ++ [t]) = (TickComponent t.1 t.2 (tickAll s ts)).1 := by
  simp [tickAll, List.foldl_append]

theorem tickAll_equilibrium (s : RTSCamera) (h : s.TargetArmLength = s.DesiredZoomLength)
    (ts : List (World × ℚ)) :
    (tickAll s ts).TargetArmLength = s.TargetArmLength ∧
    (tickAll s ts).DesiredZoomLength = s.DesiredZoomLength := by
  induction ts using List.reverseRecOn with
  | nil => exact ⟨rfl, rfl⟩
  | append_singleton ts t ih =>
    rw [tickAll_append, Tick_TargetArmLength, (Tick_zoom_fields _ _ _).1, ih.1, ih.2, ← h,
      FInterpTo_self]
    exact ⟨rfl, rfl⟩

/-- C12: zoom smoothing is idempotent at equilibrium.  If the spring-arm
length equals `DesiredZoomLength`, then, whatever `DeltaSeconds` and
`ZoomCatchupSpeed` are, `SmoothTargetArmLengthToDesiredZoom` leaves the state
as it is, and after any number of ticks (with any worlds and any `DeltaTime`)
the length and the desired length are still the same value. -/
theorem C12_smoothing_idempotent (s : RTSCamera)
    (h : s.TargetArmLength = s.DesiredZoomLength) :
    SmoothTargetArmLengthToDesiredZoom s = s ∧
    (∀ ts : List (World × ℚ),
      (tickAll s ts).TargetArmLength = s.TargetArmLength ∧
      (tickAll s ts).DesiredZoomLength = s.DesiredZoomLength) := by
  refine ⟨?_, tickAll_equilibrium s h⟩
  have e : FMath.FInterpTo s.TargetArmLength s.DesiredZoomLength s.DeltaSeconds
      s.ZoomCatchupSpeed = s.TargetArmLength := by
    rw [← h]; exact FInterpTo_self _ _ _
  unfold SmoothTargetArmLengthToDesiredZoom
  rw [e]

/-- After `ConfigureSpringArm` the arm is at the desired length; smoothing
keeps it there. -/
theorem C12_smoothing_idempotent_witness :
    (ConfigureSpringArm URTSCamera).TargetArmLength
      = (ConfigureSpringArm URTSCamera).DesiredZoomLength ∧
    SmoothTargetArmLengthToDesiredZoom (ConfigureSpringArm URTSCamera)
      = ConfigureSpringArm URTSCamera :=
  ⟨rfl, (C12_smoothing_idempotent (ConfigureSpringArm URTSCamera) rfl).1⟩

/-- C13 (as stated, refuted): with the constructor's configuration, whose
`ZoomSpeed` is -200, and `DesiredZoomLength` at the maximum 5000,
`OnZoomCamera` with delta -10000 leaves `DesiredZoomLength` at 5000; it does
not yield 500. -/
theorem C13_negative_delta_stays_at_maximum :
    (ConfigureSpringArm URTSCamera).DesiredZoomLength = 5000 ∧
    (OnZoomCamera (-10000) (ConfigureSpringArm URTSCamera)).DesiredZoomLength = 5000 ∧
    (OnZoomCamera (-10000) (ConfigureSpringArm URTSCamera)).DesiredZoomLength ≠ 500 := by
  have e : (OnZoomCamera (-10000) (ConfigureSpringArm URTSCamera)).DesiredZoomLength = 5000 := by
    norm_num [OnZoomCamera, ConfigureSpringArm, URTSCamera, FMath.Clamp, FMath.Max, FMath.Min]
  refine ⟨rfl, e, ?_⟩
  rw [e]
  norm_num

/-- C13 (amended): with the constructor's configuration (maximum 5000, minimum
500, `ZoomSpeed` -200) and `DesiredZoomLength` at 5000 as `ConfigureSpringArm`
sets it, `OnZoomCamera` with delta -10000 leaves `DesiredZoomLength` at 5000
and a following delta +10000 yields 500; in the other order, delta +10000
yields 500 and a following delta -10000 yields 5000. -/
theorem C13_zoom_example :
    URTSCamera.MaximumZoomLength = 5000 ∧ URTSCamera.MinimumZoomLength = 500 ∧
    URTSCamera.ZoomSpeed = -200 ∧
    (ConfigureSpringArm URTSCamera).DesiredZoomLength = 5000 ∧
    (zoomEvents (ConfigureSpringArm URTSCamera) [-10000]).DesiredZoomLength = 5000 ∧
    (zoomEvents (ConfigureSpringArm URTSCamera) [-10000, 10000]).DesiredZoomLength = 500 ∧
    (zoomEvents (ConfigureSpringArm URTSCamera) [10000]).DesiredZoomLength = 500 ∧
    (zoomEvents (ConfigureSpringArm URTSCamera) [10000, -10000]).DesiredZoomLength = 5000 := by
  refine ⟨rfl, rfl, rfl, rfl, ?_, ?_, ?_, ?_⟩ <;>
    norm_num [zoomEvents, OnZoomCamera, ConfigureSpringArm, URTSCamera, FMath.Clamp, FMath.Max,
      FMath.Min]

/-- C14: with dynamic height enabled, on a hit of the ground trace the stage
replaces the whole root location by the hit location, leaves every other part
of the state (the latch included) as it is and prints nothing; with dynamic
height disabled the stage changes nothing and prints nothing. -/
theorem C14_ground_hit (w : World) (s : RTSCamera) :
    (s.EnableDynamicCameraHeight = true → ∀ Hit : FVector, GroundTrace w s = some Hit →
      ConditionallyKeepCameraAtDesiredZoomAboveGround w s
        = ({ s with RootLocation := Hit.toLocation }, []) ∧
      (ConditionallyKeepCameraAtDesiredZoomAboveGround w s).1.RootLocation.Z = .num Hit.Z ∧
      (ConditionallyKeepCameraAtDesiredZoomAboveGround w
        s).1.IsCameraOutOfBoundsErrorAlreadyDisplayed
          = s.IsCameraOutOfBoundsErrorAlreadyDisplayed) ∧
    (s.EnableDynamicCameraHeight = false →
      ConditionallyKeepCameraAtDesiredZoomAboveGround w s = (s, [])) := by
  constructor
  · intro hE Hit hH
    have e : ConditionallyKeepCameraAtDesiredZoomAboveGround w s
        = ({ s with RootLocation := Hit.toLocation }, []) := by
      rw [Keep_enabled w s hE, hH]
      rfl
    rw [e]
    exact ⟨rfl, rfl, rfl⟩
  · intro hE
    simp [ConditionallyKeepCameraAtDesiredZoomAboveGround, hE]

/-- Over flat ground the root at (3, 4, 50) is put at (3, 4, 0). -/
theorem C14_ground_hit_witness :
    URTSCamera.EnableDynamicCameraHeight = true ∧
    ConditionallyKeepCameraAtDesiredZoomAboveGround groundWorld
        { URTSCamera with RootLocation := FVector.toLocation ⟨3, 4, 50⟩ }
      = ({ URTSCamera with RootLocation := FVector.toLocation ⟨3, 4, 0⟩ }, []) :=
  ⟨rfl,
   ((C14_ground_hit groundWorld { URTSCamera with RootLocation := FVector.toLocation ⟨3, 4, 50⟩ }).1
      rfl ⟨3, 4, 0⟩ rfl).1⟩

theorem Tick_queue (w : World) (DeltaTime : ℚ) (s : RTSCamera) :
    (TickComponent w DeltaTime s).1.MoveCameraCommands = [] := by
  have hE : ∀ t : RTSCamera,
      (ConditionallyPerformEdgeScrolling w t).MoveCameraCommands = t.MoveCameraCommands := by
    intro t
    unfold ConditionallyPerformEdgeScrolling
    split_ifs <;> rfl
  have hK : ∀ t : RTSCamera,
      (ConditionallyKeepCameraAtDesiredZoomAboveGround w t).1.MoveCameraCommands
        = t.MoveCameraCommands := by
    intro t
    unfold ConditionallyKeepCameraAtDesiredZoomAboveGround
    split
    · split
      · rfl
      · split <;> rfl
    · rfl
  have hF : ∀ t : RTSCamera,
      (FollowTargetIfSet w t).MoveCameraCommands = t.MoveCameraCommands := by
    intro t
    unfold FollowTargetIfSet
    split <;> rfl
  have hB : ∀ t : RTSCamera,
      (ConditionallyApplyCameraBounds w t).MoveCameraCommands = t.MoveCameraCommands := by
    intro t
    unfold ConditionallyApplyCameraBounds
    split <;> rfl
  unfold TickComponent
  simp only []
  rw [hB, hF]
  show (ConditionallyKeepCameraAtDesiredZoomAboveGround w _).1.MoveCameraCommands = []
  rw [hK]
  unfold TickComponent.beforeGround
  rw [hE]
  rfl

theorem Tick_DeltaSeconds (w : World) (DeltaTime : ℚ) (s : RTSCamera) :
    (TickComponent w DeltaTime s).1.DeltaSeconds = DeltaTime := by
  have h := atSmooth_exceptLocation w DeltaTime s
  have e3 : (ConditionallyKeepCameraAtDesiredZoomAboveGround w
      (TickComponent.beforeGround w DeltaTime s)).1.DeltaSeconds = DeltaTime :=
    (congrArg RTSCamera.DeltaSeconds h :)
  have e5 := congrArg RTSCamera.DeltaSeconds
    (Bounds_exceptLocation w (FollowTargetIfSet w (SmoothTargetArmLengthToDesiredZoom
      (ConditionallyKeepCameraAtDesiredZoomAboveGround w
        (TickComponent.beforeGround w DeltaTime s)).1)))
  have e6 := congrArg RTSCamera.DeltaSeconds
    (Follow_exceptLocation w (SmoothTargetArmLengthToDesiredZoom
      (ConditionallyKeepCameraAtDesiredZoomAboveGround w
        (TickComponent.beforeGround w DeltaTime s)).1))
  simp only [exceptLocation] at e5 e6
  unfold TickComponent
  simp only []
  rw [e5, e6]
  exact e3

/-- C15: `OnMoveCameraXAxis` (resp. `OnMoveCameraYAxis`) with the scalar `v`
appends exactly one command at the end of the queue, whose direction is the X
and Y of the spring arm's current right (resp. forward) vector and whose
`Scale` is `v`, and changes nothing else: the root location is the same after
the call, and the queue is emptied by the next tick. -/
theorem C15_move_axis_enqueues (w : World) (v : ℚ) (s : RTSCamera) :
    OnMoveCameraXAxis w v s
      = { s with
          MoveCameraCommands := s.MoveCameraCommands
            ++ [⟨w.SpringArmRightVector.X, w.SpringArmRightVector.Y, .num v⟩] } ∧
    OnMoveCameraYAxis w v s
      = { s with
          MoveCameraCommands := s.MoveCameraCommands
            ++ [⟨w.SpringArmForwardVector.X, w.SpringArmForwardVector.Y, .num v⟩] } ∧
    (OnMoveCameraXAxis w v s).RootLocation = s.RootLocation ∧
    (OnMoveCameraYAxis w v s).RootLocation = s.RootLocation ∧
    (∀ (u : World) (DeltaTime : ℚ),
      (TickComponent u DeltaTime (OnMoveCameraXAxis w v s)).1.MoveCameraCommands = [] ∧
      (TickComponent u DeltaTime (OnMoveCameraYAxis w v s)).1.MoveCameraCommands = []) :=
  ⟨rfl, rfl, rfl, rfl, fun u d => ⟨Tick_queue u d _, Tick_queue u d _⟩⟩

/-- C16 (as stated, refuted): with the constructor's `RotateSpeed` 45 and yaw
0, one `OnTurnCameraLeft` gives yaw -45, not +45, and one `OnTurnCameraRight`
gives yaw +45, not -45. -/
theorem C16_turn_left_subtracts :
    (OnTurnCameraLeft URTSCamera).RootRotation.Yaw = -45 ∧
    (OnTurnCameraLeft URTSCamera).RootRotation.Yaw
      ≠ URTSCamera.RootRotation.Yaw + URTSCamera.RotateSpeed ∧
    (OnTurnCameraRight URTSCamera).RootRotation.Yaw = 45 ∧
    (OnTurnCameraRight URTSCamera).RootRotation.Yaw
      ≠ URTSCamera.RootRotation.Yaw - URTSCamera.RotateSpeed := by
  refine ⟨?_, ?_, ?_, ?_⟩ <;>
    norm_num [OnTurnCameraLeft, OnTurnCameraRight, FRotator.MakeFromEuler, FRotator.Euler,
      URTSCamera]

/-- C16 (amended): `OnTurnCameraLeft` subtracts and `OnTurnCameraRight` adds
the fixed `RotateSpeed`: one trigger of `OnTurnCameraLeft` changes the yaw by
exactly `-RotateSpeed`, one trigger of `OnTurnCameraRight` by exactly
`+RotateSpeed`; roll and pitch, the position, the zoom state and every other
part of the state are unchanged, and a left turn followed by a right turn (or
a right turn followed by a left turn) restores the original state. -/
theorem C16_turn_yaw (s : RTSCamera) :
    OnTurnCameraLeft s
      = { s with RootRotation := { s.RootRotation with Yaw := s.RootRotation.Yaw - s.RotateSpeed } } ∧
    OnTurnCameraRight s
      = { s with RootRotation := { s.RootRotation with Yaw := s.RootRotation.Yaw + s.RotateSpeed } } ∧
    ((OnTurnCameraLeft s).RootRotation.Yaw = s.RootRotation.Yaw - s.RotateSpeed ∧
      (OnTurnCameraLeft s).RootRotation.Pitch = s.RootRotation.Pitch ∧
      (OnTurnCameraLeft s).RootRotation.Roll = s.RootRotation.Roll ∧
      (OnTurnCameraLeft s).RootLocation = s.RootLocation ∧
      (OnTurnCameraLeft s).DesiredZoomLength = s.DesiredZoomLength ∧
      (OnTurnCameraLeft s).TargetArmLength = s.TargetArmLength) ∧
    ((OnTurnCameraRight s).RootRotation.Yaw = s.RootRotation.Yaw + s.RotateSpeed ∧
      (OnTurnCameraRight s).RootRotation.Pitch = s.RootRotation.Pitch ∧
      (OnTurnCameraRight s).RootRotation.Roll = s.RootRotation.Roll ∧
      (OnTurnCameraRight s).RootLocation = s.RootLocation ∧
      (OnTurnCameraRight s).DesiredZoomLength = s.DesiredZoomLength ∧
      (OnTurnCameraRight s).TargetArmLength = s.TargetArmLength) ∧
    OnTurnCameraRight (OnTurnCameraLeft s) = s ∧
    OnTurnCameraLeft (OnTurnCameraRight s) = s := by
  refine ⟨rfl, rfl, ⟨rfl, rfl, rfl, rfl, rfl, rfl⟩, ⟨rfl, rfl, rfl, rfl, rfl, rfl⟩, ?_, ?_⟩
  · have e : s.RootRotation.Yaw - s.RotateSpeed + s.RotateSpeed = s.RootRotation.Yaw := by ring
    simp only [OnTurnCameraRight, OnTurnCameraLeft, FRotator.MakeFromEuler, FRotator.Euler, e]
  · have e : s.RootRotation.Yaw + s.RotateSpeed - s.RotateSpeed = s.RootRotation.Yaw := by ring
    simp only [OnTurnCameraRight, OnTurnCameraLeft, FRotator.MakeFromEuler, FRotator.Euler, e]

theorem EdgeScrolling_location (w : World) (s : RTSCamera)
    (hE : s.EnableEdgeScrolling = true) (hD : s.IsDragging = false) :
    (ConditionallyPerformEdgeScrolling w s).RootLocation
      = s.RootLocation + (edgeScrollSum w s).toLocation := by
  have hc : (s.EnableEdgeScrolling && !s.IsDragging) = true := by simp [hE, hD]
  unfold ConditionallyPerformEdgeScrolling
  rw [if_pos hc]
  have l1 : ∀ t : RTSCamera, (EdgeScrollLeft w t).EdgeScrollSpeed = t.EdgeScrollSpeed ∧
      (EdgeScrollLeft w t).DeltaSeconds = t.DeltaSeconds := fun _ => ⟨rfl, rfl⟩
  have l2 : ∀ t : RTSCamera, (EdgeScrollRight w t).EdgeScrollSpeed = t.EdgeScrollSpeed ∧
      (EdgeScrollRight w t).DeltaSeconds = t.DeltaSeconds := fun _ => ⟨rfl, rfl⟩
  have l3 : ∀ t : RTSCamera, (EdgeScrollUp w t).EdgeScrollSpeed = t.EdgeScrollSpeed ∧
      (EdgeScrollUp w t).DeltaSeconds = t.DeltaSeconds := fun _ => ⟨rfl, rfl⟩
  show s.RootLocation + _ + _ + _ + _ = _
  rw [FLocation.eq_iff_components]
  simp only [FLocation.add_components, FVector.add_def, FVector.toLocation, edgeScrollSum,
    edgeDisplacement, FVector.scale, (l1 _).1, (l1 _).2, (l2 _).1, (l2 _).2, (l3 _).1, (l3 _).2,
    FloatValue.add_num_add_num]
  refine ⟨?_, ?_, ?_⟩ <;> congr 2 <;> ring

/-- C17: if `EnableEdgeScrolling` is false or `IsDragging` is true,
`ConditionallyPerformEdgeScrolling` leaves the state, and so the root
location, as it is, whatever the pointer and the viewport are; otherwise the
root location is displaced by the sum of the four edge displacements, each
`Movement * EdgeScrollSpeed * DeltaSeconds` along -right (left edge), +right
(right edge), +forward (top edge), -forward (bottom edge), and nothing but the
root location changes. -/
theorem C17_edge_scrolling_gate (w : World) (s : RTSCamera) :
    (s.EnableEdgeScrolling = false ∨ s.IsDragging = true →
      ConditionallyPerformEdgeScrolling w s = s) ∧
    (s.EnableEdgeScrolling = true → s.IsDragging = false →
      ConditionallyPerformEdgeScrolling w s
        = { s with RootLocation := s.RootLocation + (edgeScrollSum w s).toLocation }) := by
  constructor
  · intro h
    have hc : ¬ ((s.EnableEdgeScrolling && !s.IsDragging) = true) := by
      rcases h with h | h <;> simp [h]
    unfold ConditionallyPerformEdgeScrolling
    rw [if_neg hc]
  · intro hE hD
    have hl := EdgeScrolling_location w s hE hD
    have hc : (s.EnableEdgeScrolling && !s.IsDragging) = true := by simp [hE, hD]
    rw [← hl]
    unfold ConditionallyPerformEdgeScrolling
    rw [if_pos hc]
    rfl

/-- Edge scrolling is enabled in the component as constructed: with the
pointer on the left edge of the example viewport (right vector (0,1,0), speed
50) and `DeltaSeconds` 1/10 the root moves from the origin to (0, -5, 0);
during a drag it does not move. -/
theorem C17_edge_scrolling_gate_witness :
    URTSCamera.EnableEdgeScrolling = true ∧ URTSCamera.IsDragging = false ∧
    (ConditionallyPerformEdgeScrolling (pointerWorld ⟨0, 300⟩)
        { URTSCamera with DeltaSeconds := 1 / 10 }).RootLocation
      = FVector.toLocation ⟨0, -5, 0⟩ ∧
    (draggingCamera ⟨400, 300⟩).IsDragging = true ∧
    ConditionallyPerformEdgeScrolling (pointerWorld ⟨0, 300⟩) (draggingCamera ⟨400, 300⟩)
      = draggingCamera ⟨400, 300⟩ := by
  refine ⟨rfl, rfl, ?_, rfl,
    (C17_edge_scrolling_gate (pointerWorld ⟨0, 300⟩) (draggingCamera ⟨400, 300⟩)).1
      (Or.inr rfl)⟩
  rw [(C17_edge_scrolling_gate (pointerWorld ⟨0, 300⟩)
    { URTSCamera with DeltaSeconds := 1 / 10 }).2 rfl rfl]
  rw [FLocation.eq_iff_components]
  norm_num [FLocation.add_components, FVector.add_def, FVector.toLocation, edgeScrollSum,
    edgeDisplacement, FVector.scale, EdgeScrollLeft.Movement, EdgeScrollRight.Movement, EdgeScrollUp.Movement,
    EdgeScrollDown.Movement, pointerWorld, World.withPointer, exampleWorld, URTSCamera,
    FLOAT_0_05, FLOAT_0_95, UKismetMathLibrary.NormalizeToRange, UKismetMathLibrary.FClamp,
    FMath.Clamp, FMath.Max, FMath.Min]

/-- C18: a tick never changes the input-owned state.  For every state and
every tick input, `TickComponent` leaves `DesiredZoomLength`, `IsDragging`,
`DragStartLocation`, the follow target, the boundary volume and the root
rotation unchanged; more, everything but the root location, the spring-arm
length, the command queue, `DeltaSeconds` and the out-of-bounds latch is
unchanged; the queue is empty, `DeltaSeconds` is the `DeltaTime` of the tick
and the spring-arm length is the interpolated one. -/
theorem C18_tick_frame (w : World) (DeltaTime : ℚ) (s : RTSCamera) :
    (TickComponent w DeltaTime s).1.DesiredZoomLength = s.DesiredZoomLength ∧
    (TickComponent w DeltaTime s).1.IsDragging = s.IsDragging ∧
    (TickComponent w DeltaTime s).1.DragStartLocation = s.DragStartLocation ∧
    (TickComponent w DeltaTime s).1.CameraFollowTarget = s.CameraFollowTarget ∧
    (TickComponent w DeltaTime s).1.BoundaryVolume = s.BoundaryVolume ∧
    (TickComponent w DeltaTime s).1.RootRotation = s.RootRotation ∧
    exceptTickOutputs (TickComponent w DeltaTime s).1 = exceptTickOutputs s ∧
    (TickComponent w DeltaTime s).1.MoveCameraCommands = [] ∧
    (TickComponent w DeltaTime s).1.DeltaSeconds = DeltaTime ∧
    (TickComponent w DeltaTime s).1.TargetArmLength
      = FMath.FInterpTo s.TargetArmLength s.DesiredZoomLength DeltaTime s.ZoomCatchupSpeed := by
  have h := Tick_exceptTickOutputs w DeltaTime s
  exact ⟨(congrArg RTSCamera.DesiredZoomLength h :), (congrArg RTSCamera.IsDragging h :),
    (congrArg RTSCamera.DragStartLocation h :), (congrArg RTSCamera.CameraFollowTarget h :),
    (congrArg RTSCamera.BoundaryVolume h :), (congrArg RTSCamera.RootRotation h :), h,
    Tick_queue w DeltaTime s, Tick_DeltaSeconds w DeltaTime s, Tick_TargetArmLength w DeltaTime s⟩

end OpenRTSCamera
